import Mathlib

/-!
Verification of the Trackman operational-metrics query layer.

This development gives a shallow embedding of the query layer of the
repository: the file-backed (Excel/pandas) data source, the
warehouse-backed (Redshift/SQL) data source, the schema allowlist, the
data-source factory, and the query-dispatching tool.  Pure pandas and SQL
computations are translated into executable Lean functions over explicit
data; fallible Python code (raised exceptions) is modelled with
`Except String`.  Timestamps are modelled as integers (day numbers), the
current time `now` is passed explicitly, and the date cutoff is
`now - range_days` exactly as in the source.
-/

namespace Trackman

/-- Scalar cell values of a tabular result: strings, integers, exact
rationals (standing for the numeric/float values of pandas and SQL), and
null (pandas NaN / SQL NULL).  Floating-point rounding of the hosts is
abstracted by exact rational arithmetic. -/
inductive Value where
  | str (s : String)
  | int (n : Int)
  | rat (q : ℚ)
  | null
deriving DecidableEq

/-- A row is a positional list of scalar cells. -/
abbrev Row := List Value

/-- In-memory dataframe: ordered column names and rows of cells, the shape
pandas dataframes take in this code base. -/
structure DataFrame where
  columns : List String
  rows : List Row
deriving DecidableEq

/-- Mirror of the pandas `df.empty` flag: true when either axis has
length zero. -/
def DataFrame.empty (df : DataFrame) : Bool :=
  df.rows.isEmpty || df.columns.isEmpty

/-- Index of a named column, `none` when the column is absent. -/
def DataFrame.colIdx (df : DataFrame) (c : String) : Option Nat :=
  df.columns.findIdx? (· == c)

/-- Cell of a row at a column index; missing positions read as null. -/
def cellAt (r : Row) (i : Nat) : Value :=
  r.getD i Value.null

/-- Python truthiness of an optional string: `None` and the empty string
are falsy, every other string is truthy. -/
def optStrTruthy : Option String → Bool
  | none => false
  | some s => !(s == "")

/-- Column access that raises: pandas `df[c]` raises a KeyError when the
column is absent (in particular on a column-less empty dataframe). -/
def requireCol (df : DataFrame) (c : String) : Except String Nat :=
  match df.colIdx c with
  | some i => .ok i
  | none => .error ("KeyError: " ++ c)

/-- Deduplication keeping the first occurrence of every element, the
semantics of `DataFrame.drop_duplicates` (pandas keeps the first of each
group of exact-duplicate rows). -/
def dedupFirst [DecidableEq α] : List α → List α
  | [] => []
  | a :: l => a :: (dedupFirst l).filter (· != a)

/-- Stable insertion of an element into a list with respect to a Boolean
comparator (used to model the sorting steps of pandas and SQL). -/
def insertLe (le : α → α → Bool) (a : α) : List α → List α
  | [] => [a]
  | b :: l => if le a b then a :: b :: l else b :: insertLe le a l

/-- Stable insertion sort with respect to a Boolean comparator. -/
def sortBy (le : α → α → Bool) : List α → List α
  | [] => []
  | a :: l => insertLe le a (sortBy le l)

/-- Rounding a rational to two decimal places, the model of both pandas
`.round(2)` / Python `round(x, 2)` and the SQL `ROUND(x, 2)`.  The hosts
disagree only on exact half-way ties (banker versus half-away rounding);
no verified property depends on the tie direction, and this model uses
round-half-up. -/
def round2 (q : ℚ) : ℚ :=
  ((round (q * 100) : ℤ) : ℚ) / 100

/-- Metadata attached to every tabular result: the applied request
parameters, the source identifier and the row count (the keys of the
metadata dict built by both data sources; `limit` is present only for
top_error_messages). -/
structure Metadata where
  range_days : Int
  facility_id : Option String
  limit : Option Int
  source : String
  rowCount : Nat
deriving DecidableEq

/-- The tabular result shape shared by both backends: column names, rows
and metadata. -/
structure QueryResult where
  columns : List String
  rows : List Row
  metadata : Metadata
deriving DecidableEq

/-- The four merged logical datasets held by ExcelDataSource in
`self._data` after loading. -/
structure ExcelData where
  errors : DataFrame
  connectivity : DataFrame
  facility_metadata : DataFrame
  data_quality : DataFrame
deriving DecidableEq

/-- Total order used to model the ascending key sort pandas applies to
group keys; keys of distinct kinds are ordered by kind rank. -/
def Value.rank : Value → Nat
  | .null => 0
  | .int _ => 1
  | .rat _ => 2
  | .str _ => 3

/-- Executable lexicographic comparison of character lists (the VARCHAR
collation model). -/
def charListLt : List Char → List Char → Bool
  | [], [] => false
  | [], _ :: _ => true
  | _ :: _, [] => false
  | a :: as, b :: bs =>
    if a.toNat < b.toNat then true
    else if b.toNat < a.toNat then false
    else charListLt as bs

/-- Executable lexicographic string comparison. -/
def strLtB (a b : String) : Bool :=
  charListLt a.data b.data

/-- Boolean comparator on cell values (ascending). -/
def valueLe : Value → Value → Bool
  | .int a, .int b => decide (a ≤ b)
  | .rat a, .rat b => decide (a ≤ b)
  | .str a, .str b => !(strLtB b a)
  | v, w => Nat.ble v.rank w.rank

/-- Python `str()` of a cell value, as used when facility metadata fields
are rendered; the host renderings of numerics and NaN are abstracted. -/
def pyStr : Value → String
  | .str s => s
  | .int n => toString n
  | .rat q => toString q
  | .null => "nan"

/-- Numeric reading of a cell (pandas numeric aggregation); non-numeric
cells are abstracted to zero, no verified property depends on them. -/
def ratOf : Value → ℚ
  | .int n => (n : ℚ)
  | .rat q => q
  | _ => 0

/-- Integer reading of a cell, for integer-typed sums. -/
def intOf : Value → Int
  | .int n => n
  | _ => 0

/-- Cells of one column across a list of rows. -/
def colCells (grp : List Row) (i : Nat) : List Value :=
  grp.map (fun r => cellAt r i)

/-- Drop null cells (pandas aggregations skip NaN). -/
def nonNull (vs : List Value) : List Value :=
  vs.filter (fun v => !(v == Value.null))

/-- Count of non-null cells of a column (the pandas "count" aggregate). -/
def countNonNull (grp : List Row) (i : Nat) : Nat :=
  (nonNull (colCells grp i)).length

/-- Count of cells equal to a given string (`(x == s).sum()`; null and
non-string cells compare unequal, as in pandas). -/
def countEqStr (grp : List Row) (i : Nat) (s : String) : Nat :=
  (grp.filter (fun r => cellAt r i == Value.str s)).length

/-- Number of distinct non-null cells of a column (pandas `nunique`). -/
def nuniqueNonNull (grp : List Row) (i : Nat) : Nat :=
  (dedupFirst (nonNull (colCells grp i))).length

namespace Excel

/-- `ExcelDataSource._filter_by_date_range`: keep rows whose timestamp is
at least `now - range_days`; frames without a timestamp column, and empty
frames, pass through unchanged.  Rows whose timestamp cell is null or
non-temporal are dropped by the comparison, as NaT is in pandas. -/
def filterByDateRange (df : DataFrame) (now range_days : Int) : DataFrame :=
  match df.colIdx "timestamp" with
  | none => df
  | some i =>
    if df.empty then df
    else
      { df with rows := df.rows.filter (fun r =>
          match cellAt r i with
          | .int t => decide (now - range_days ≤ t)
          | _ => false) }

/-- `ExcelDataSource._filter_by_facility`: filter on the facility_id
column when a truthy facility id is supplied and the column exists;
otherwise no filtering (in particular `None` and the empty string leave
the frame unchanged). -/
def filterByFacility (df : DataFrame) (facility_id : Option String) : DataFrame :=
  if optStrTruthy facility_id then
    match df.colIdx "facility_id" with
    | some i =>
      { df with rows := df.rows.filter (fun r =>
          cellAt r i == Value.str (facility_id.getD "")) }
    | none => df
  else df

/-- `df.fillna("")`: null cells are replaced with the empty string when a
frame is rendered into a result. -/
def fillNA : Value → Value
  | .null => .str ""
  | v => v

/-- `ExcelDataSource._format_result`: an empty frame (either axis empty)
yields empty columns and rows with rowCount 0; otherwise columns, the
null-filled rows, and rowCount equal to the number of rows. -/
def formatResult (df : DataFrame) (range_days : Int) (facility_id : Option String)
    (limit : Option Int) : QueryResult :=
  if df.empty then
    ⟨[], [], ⟨range_days, facility_id, limit, "excel", 0⟩⟩
  else
    ⟨df.columns, df.rows.map (fun r => r.map fillNA),
      ⟨range_days, facility_id, limit, "excel", df.rows.length⟩⟩

/-- Rows of one group (pandas groupby assembles the rows whose key cell
equals the group key). -/
def groupRows (df : DataFrame) (i : Nat) (k : Value) : List Row :=
  df.rows.filter (fun r => cellAt r i == k)

/-- Group keys of a column: distinct non-null cells (pandas groupby drops
null keys) in the ascending key order pandas uses. -/
def groupKeys (df : DataFrame) (i : Nat) : List Value :=
  sortBy valueLe (dedupFirst (nonNull (colCells df.rows i)))

/-- `ExcelDataSource.get_errors_summary`: filter by date and facility;
empty frames format as empty results; otherwise group by facility_id and
emit per group the non-null error_code count, the count of severity
critical, and the number of distinct error codes (the merge of the two
groupby frames of the source keeps exactly these four columns). -/
def get_errors_summary (data : ExcelData) (now range_days : Int)
    (facility_id : Option String) : Except String QueryResult :=
  let df := filterByFacility (filterByDateRange data.errors now range_days) facility_id
  if df.empty then
    .ok (formatResult df range_days facility_id none)
  else
    match requireCol df "facility_id", requireCol df "error_code",
        requireCol df "severity" with
    | .ok fi, .ok ci, .ok si =>
      let rows := (groupKeys df fi).map (fun k =>
        let grp := groupRows df fi k
        [k, Value.int (countNonNull grp ci), Value.int (countEqStr grp si "critical"),
          Value.int (nuniqueNonNull grp ci)])
      .ok (formatResult
        ⟨["facility_id", "error_count", "critical_count", "unique_errors"], rows⟩
        range_days facility_id none)
    | .error e, _, _ => .error e
    | _, .error e, _ => .error e
    | _, _, .error e => .error e

/-- `ExcelDataSource.get_top_error_messages`: filter by date and facility;
an empty frame formats as an empty result.  On a non-empty frame the
source evaluates
`df.groupby([error_message, error_code]).agg(error_code - size,
severity - first).reset_index()`: the aggregation dict names the grouping
column error_code, so the aggregated frame carries an error_code column
while error_code is also an index level, and the chain raises for every
non-empty input (either the aggregation key validation or the
reset_index insertion fails, depending on the pandas version; no released
pandas completes it).  Column accesses are checked in source order before
the raise. -/
def get_top_error_messages (data : ExcelData) (now range_days limit : Int)
    (facility_id : Option String) : Except String QueryResult :=
  let df := filterByFacility (filterByDateRange data.errors now range_days) facility_id
  if df.empty then
    .ok (formatResult df range_days facility_id (some limit))
  else
    match requireCol df "error_message", requireCol df "error_code",
        requireCol df "severity" with
    | .ok _, .ok _, .ok _ =>
      .error "ValueError: cannot insert error_code, already exists"
    | .error e, _, _ => .error e
    | _, .error e, _ => .error e
    | _, _, .error e => .error e

/-- `ExcelDataSource.get_connectivity_summary`: group the filtered
connectivity events by facility_id and emit total events, connected
count, and the connected percentage rounded to two decimals. -/
def get_connectivity_summary (data : ExcelData) (now range_days : Int)
    (facility_id : Option String) : Except String QueryResult :=
  let df := filterByFacility (filterByDateRange data.connectivity now range_days)
    facility_id
  if df.empty then
    .ok (formatResult df range_days facility_id none)
  else
    match requireCol df "facility_id", requireCol df "connectivity_status" with
    | .ok fi, .ok si =>
      let rows := (groupKeys df fi).map (fun k =>
        let grp := groupRows df fi k
        let total := grp.length
        let conn := countEqStr grp si "connected"
        [k, Value.int total, Value.int conn,
          Value.rat (round2 (((conn : ℚ) / (total : ℚ)) * 100))])
      .ok (formatResult
        ⟨["facility_id", "total_events", "connected_count", "connected_pct"], rows⟩
        range_days facility_id none)
    | .error e, _ => .error e
    | _, .error e => .error e

/-- `ExcelDataSource.get_disconnect_reasons`: filter to disconnected
events; value_counts over disconnect_reason (dropping null reasons),
sorted by count descending; each percentage is the count over the sum of
the counted (non-null-reason) rows, times 100, rounded to two
decimals. -/
def get_disconnect_reasons (data : ExcelData) (now range_days : Int)
    (facility_id : Option String) : Except String QueryResult :=
  let df := filterByFacility (filterByDateRange data.connectivity now range_days)
    facility_id
  if df.empty then
    .ok (formatResult df range_days facility_id none)
  else
    match requireCol df "connectivity_status" with
    | .error e => .error e
    | .ok si =>
      let disconnected : DataFrame :=
        ⟨df.columns, df.rows.filter (fun r => cellAt r si == Value.str "disconnected")⟩
      if disconnected.empty then
        .ok (formatResult disconnected range_days facility_id none)
      else
        match requireCol disconnected "disconnect_reason" with
        | .error e => .error e
        | .ok ri =>
          let vals := nonNull (colCells disconnected.rows ri)
          let counts := (dedupFirst vals).map (fun k => (k, vals.count k))
          let sorted := sortBy (fun a b => decide (b.2 ≤ a.2)) counts
          let total := (counts.map Prod.snd).sum
          let rows := sorted.map (fun p =>
            [p.1, Value.int (p.2 : Int),
              Value.rat (round2 (((p.2 : ℚ) / (total : ℚ)) * 100))])
          .ok (formatResult ⟨["disconnect_reason", "count", "percentage"], rows⟩
            range_days facility_id none)

/-- `ExcelDataSource.get_facility_summary`: look up the facility in the
facility_metadata frame (a KeyError when that frame has no facility_id
column, e.g. the column-less frame an empty data directory produces); an
unmatched facility yields an empty result.  Otherwise one (metric, value)
row per metadata column except facility_id, then errors_total and
errors_critical when errors exist in range, connectivity_pct when
connectivity events exist in range, and avg_data_quality_score when
quality samples exist in range; each block accesses the facility_id
column of its frame (a KeyError when absent) and the value columns only
when its filtered rows are non-empty, in source order. -/
def get_facility_summary (data : ExcelData) (now : Int) (facility_id : String)
    (range_days : Int) : Except String QueryResult :=
  match requireCol data.facility_metadata "facility_id" with
  | .error e => .error e
  | .ok fi =>
    let facility_meta := data.facility_metadata.rows.filter
      (fun r => cellAt r fi == Value.str facility_id)
    if facility_meta.isEmpty then
      .ok (formatResult ⟨[], []⟩ range_days (some facility_id) none)
    else
      let firstRow := facility_meta.headD []
      let metaRows : List Row := data.facility_metadata.columns.enum.filterMap
        (fun p =>
          if p.2 == "facility_id" then none
          else some [Value.str p.2, Value.str (pyStr (cellAt firstRow p.1))])
      let errors_f := filterByDateRange data.errors now range_days
      match requireCol errors_f "facility_id" with
      | .error e => .error e
      | .ok efi =>
        let errors_filtered := errors_f.rows.filter
          (fun r => cellAt r efi == Value.str facility_id)
        let errStep : Except String (List Row) :=
          if errors_filtered.isEmpty then .ok metaRows
          else
            match requireCol errors_f "severity" with
            | .error e => .error e
            | .ok esi =>
              .ok (metaRows ++
                [[Value.str "errors_total", Value.int errors_filtered.length],
                 [Value.str "errors_critical",
                  Value.int (countEqStr errors_filtered esi "critical")]])
        match errStep with
        | .error e => .error e
        | .ok m1 =>
          let conn_f := filterByDateRange data.connectivity now range_days
          match requireCol conn_f "facility_id" with
          | .error e => .error e
          | .ok cfi =>
            let conn_filtered := conn_f.rows.filter
              (fun r => cellAt r cfi == Value.str facility_id)
            let connStep : Except String (List Row) :=
              if conn_filtered.isEmpty then .ok m1
              else
                match requireCol conn_f "connectivity_status" with
                | .error e => .error e
                | .ok csi =>
                  .ok (m1 ++ [[Value.str "connectivity_pct",
                    Value.rat (round2
                      (((countEqStr conn_filtered csi "connected" : ℚ) /
                        (conn_filtered.length : ℚ)) * 100))]])
            match connStep with
            | .error e => .error e
            | .ok m2 =>
              let quality_f := filterByDateRange data.data_quality now range_days
              match requireCol quality_f "facility_id" with
              | .error e => .error e
              | .ok qfi =>
                let quality_filtered := quality_f.rows.filter
                  (fun r => cellAt r qfi == Value.str facility_id)
                let qualStep : Except String (List Row) :=
                  if quality_filtered.isEmpty then .ok m2
                  else
                    match requireCol quality_f "data_quality_score" with
                    | .error e => .error e
                    | .ok qsi =>
                      let vs := nonNull (colCells quality_filtered qsi)
                      .ok (m2 ++ [[Value.str "avg_data_quality_score",
                        Value.rat (round2
                          ((vs.map ratOf).sum / (vs.length : ℚ)))]])
                match qualStep with
                | .error e => .error e
                | .ok m3 =>
                  .ok (formatResult ⟨["metric", "value"], m3⟩
                    range_days (some facility_id) none)

/-- `ExcelDataSource.get_data_quality_summary`: group the filtered quality
samples by facility_id and emit the mean quality score (two decimals),
the sum of missing_records, and the mean latency (two decimals); pandas
mean and sum skip null cells. -/
def get_data_quality_summary (data : ExcelData) (now range_days : Int)
    (facility_id : Option String) : Except String QueryResult :=
  let df := filterByFacility (filterByDateRange data.data_quality now range_days)
    facility_id
  if df.empty then
    .ok (formatResult df range_days facility_id none)
  else
    match requireCol df "facility_id", requireCol df "data_quality_score",
        requireCol df "missing_records", requireCol df "latency_ms" with
    | .ok fi, .ok qi, .ok mi, .ok li =>
      let rows := (groupKeys df fi).map (fun k =>
        let grp := groupRows df fi k
        let qs := nonNull (colCells grp qi)
        let ms := nonNull (colCells grp mi)
        let ls := nonNull (colCells grp li)
        [k, Value.rat (round2 ((qs.map ratOf).sum / (qs.length : ℚ))),
          Value.int ((ms.map intOf).sum),
          Value.rat (round2 ((ls.map ratOf).sum / (ls.length : ℚ)))])
      .ok (formatResult
        ⟨["facility_id", "avg_quality_score", "total_missing_records",
          "avg_latency_ms"], rows⟩
        range_days facility_id none)
    | .error e, _, _, _ => .error e
    | _, .error e, _, _ => .error e
    | _, _, .error e, _ => .error e
    | _, _, _, .error e => .error e

/-- `ExcelDataSource._load_data`, merge step: the per-sheet frames of all
discovered files are concatenated in discovery order and exact-duplicate
rows are dropped keeping first occurrences (`pd.concat` followed by
`drop_duplicates`).  Loading a single file runs through the same
concatenate-then-deduplicate step.  Files are abstracted to their parsed
row lists over the common sheet schema. -/
def loadMerge (files : List (List Row)) : List Row :=
  dedupFirst files.flatten

end Excel

/-- `redshift_config.ALLOWED_TABLES`: the static table and column
allowlist. -/
def ALLOWED_TABLES : List (String × List String) :=
  [("errors",
    ["timestamp", "facility_id", "unit_id", "unit_model", "error_code",
     "severity", "error_message"]),
   ("connectivity",
    ["timestamp", "facility_id", "unit_id", "connectivity_status",
     "disconnect_reason"]),
   ("facility_metadata",
    ["facility_id", "location", "opening_hours", "subscription_status",
     "units_deployed", "usage_hours_30d", "strokes_tracked",
     "tournaments_hosted"]),
   ("data_quality",
    ["timestamp", "facility_id", "data_quality_score", "missing_records",
     "latency_ms"])]

/-- `redshift_config.validate_table`. -/
def validate_table (table_name : String) : Bool :=
  (ALLOWED_TABLES.find? (fun p => p.1 == table_name)).isSome

/-- `redshift_config.validate_columns`: every requested column must be in
the allowlisted set of the table. -/
def validate_columns (table_name : String) (columns : List String) : Bool :=
  match ALLOWED_TABLES.find? (fun p => p.1 == table_name) with
  | none => false
  | some p => columns.all (fun c => p.2.contains c)

/-- `redshift_config.get_allowed_columns`. -/
def get_allowed_columns (table_name : String) : List String :=
  ((ALLOWED_TABLES.find? (fun p => p.1 == table_name)).map Prod.snd).getD []

/-- A row of the warehouse errors table (the logical Error Event). -/
structure ErrorEvent where
  timestamp : Int
  facility_id : String
  unit_id : String
  unit_model : String
  error_code : String
  severity : String
  error_message : String
deriving DecidableEq

/-- A row of the warehouse connectivity table; disconnect_reason is
nullable. -/
structure ConnEvent where
  timestamp : Int
  facility_id : String
  unit_id : String
  connectivity_status : String
  disconnect_reason : Option String
deriving DecidableEq

/-- A row of the warehouse data_quality table. -/
structure QualitySample where
  timestamp : Int
  facility_id : String
  data_quality_score : ℚ
  missing_records : Int
  latency_ms : ℚ
deriving DecidableEq

/-- A row of the warehouse facility_metadata table. -/
structure FacilityMeta where
  facility_id : String
  location : String
  opening_hours : String
  subscription_status : String
  units_deployed : Int
  usage_hours_30d : Int
  strokes_tracked : Int
  tournaments_hosted : Int
deriving DecidableEq

/-- The warehouse database contents the generated SQL is evaluated
against. -/
structure WarehouseDb where
  errors : List ErrorEvent
  connectivity : List ConnEvent
  facility_metadata : List FacilityMeta
  data_quality : List QualitySample
deriving DecidableEq

namespace Redshift

/-- `RedshiftDataSource._validate_table_access`. -/
def validateTableAccess (table_name : String) : Except String Unit :=
  if validate_table table_name then .ok ()
  else .error ("Table " ++ table_name ++ " is not in the allowlist")

/-- The facility filter of the generated queries: the `if facility_id:`
branches add `facility_id = %s` only for a truthy id. -/
def facilityPred (facility_id : Option String) (f : String) : Bool :=
  if optStrTruthy facility_id then f == facility_id.getD "" else true

/-- `RedshiftDataSource._format_result`: columns and rows pass through,
rowCount is the number of rows. -/
def format_result (columns : List String) (rows : List Row) (range_days : Int)
    (facility_id : Option String) (limit : Option Int) : QueryResult :=
  ⟨columns, rows, ⟨range_days, facility_id, limit, "redshift", rows.length⟩⟩

/-- SQL semantics of `RedshiftDataSource.get_errors_summary`: rows with
timestamp at least `now - range_days` (and the facility when given),
grouped by facility_id, emitting COUNT(*), the critical count and
COUNT(DISTINCT error_code).  GROUP BY output order is unspecified in SQL
and is modelled as first-appearance order. -/
def get_errors_summary (db : WarehouseDb) (now range_days : Int)
    (facility_id : Option String) : Except String QueryResult :=
  match validateTableAccess "errors" with
  | .error e => .error e
  | .ok _ =>
    let cutoff := now - range_days
    let rowsF := db.errors.filter (fun ev =>
      decide (cutoff ≤ ev.timestamp) && facilityPred facility_id ev.facility_id)
    let rows := (dedupFirst (rowsF.map (·.facility_id))).map (fun f =>
      let grp := rowsF.filter (fun ev => ev.facility_id == f)
      [Value.str f, Value.int grp.length,
        Value.int (grp.filter (fun ev => ev.severity == "critical")).length,
        Value.int (dedupFirst (grp.map (·.error_code))).length])
    .ok (format_result ["facility_id", "error_count", "critical_count", "unique_errors"]
      rows range_days facility_id none)

/-- One group of the top_error_messages query. -/
structure TopGroup where
  error_message : String
  error_code : String
  count : Nat
  severity : String
deriving DecidableEq

/-- SQL MAX over two strings (lexicographic). -/
def strMax (a b : String) : String :=
  if strLtB a b then b else a

/-- SQL `MAX(severity)` over a group. -/
def maxSeverity (grp : List ErrorEvent) : String :=
  (grp.map (·.severity)).foldl strMax ""

/-- Groups of the top_error_messages query: one per distinct
(error_message, error_code) pair, with COUNT(*) and MAX(severity). -/
def topGroups (rowsF : List ErrorEvent) : List TopGroup :=
  (dedupFirst (rowsF.map (fun ev => (ev.error_message, ev.error_code)))).map (fun k =>
    let grp := rowsF.filter (fun ev =>
      ev.error_message == k.1 && ev.error_code == k.2)
    ⟨k.1, k.2, grp.length, maxSeverity grp⟩)

/-- ORDER BY count DESC comparator. -/
def topGroupGe (a b : TopGroup) : Bool :=
  decide (b.count ≤ a.count)

/-- Output row of one top_error_messages group. -/
def topRow (g : TopGroup) : Row :=
  [Value.str g.error_message, Value.str g.error_code, Value.int g.count,
   Value.str g.severity]

/-- SQL semantics of `RedshiftDataSource.get_top_error_messages`: group
the date- and facility-filtered errors by (error_message, error_code),
emit count and MAX(severity), ORDER BY count DESC (ties in the
unspecified SQL order, modelled as first-appearance order), LIMIT. -/
def get_top_error_messages (db : WarehouseDb) (now range_days limit : Int)
    (facility_id : Option String) : Except String QueryResult :=
  match validateTableAccess "errors" with
  | .error e => .error e
  | .ok _ =>
    let cutoff := now - range_days
    let rowsF := db.errors.filter (fun ev =>
      decide (cutoff ≤ ev.timestamp) && facilityPred facility_id ev.facility_id)
    let rows := ((sortBy topGroupGe (topGroups rowsF)).take limit.toNat).map topRow
    .ok (format_result ["error_message", "error_code", "count", "severity"]
      rows range_days facility_id (some limit))

/-- SQL semantics of `RedshiftDataSource.get_connectivity_summary`. -/
def get_connectivity_summary (db : WarehouseDb) (now range_days : Int)
    (facility_id : Option String) : Except String QueryResult :=
  match validateTableAccess "connectivity" with
  | .error e => .error e
  | .ok _ =>
    let cutoff := now - range_days
    let rowsF := db.connectivity.filter (fun ev =>
      decide (cutoff ≤ ev.timestamp) && facilityPred facility_id ev.facility_id)
    let rows := (dedupFirst (rowsF.map (·.facility_id))).map (fun f =>
      let grp := rowsF.filter (fun ev => ev.facility_id == f)
      let conn := (grp.filter (fun ev => ev.connectivity_status == "connected")).length
      [Value.str f, Value.int grp.length, Value.int conn,
        Value.rat (round2 ((100 * (conn : ℚ)) / (grp.length : ℚ)))])
    .ok (format_result ["facility_id", "total_events", "connected_count", "connected_pct"]
      rows range_days facility_id none)

/-- NULL-aware reason cell (SQL keeps a NULL group). -/
def reasonCell : Option String → Value
  | some s => .str s
  | none => .null

/-- The disconnected connectivity rows selected by the WHERE clause of
the disconnect_reasons query. -/
def survivingDisconnected (db : WarehouseDb) (now range_days : Int)
    (facility_id : Option String) : List ConnEvent :=
  db.connectivity.filter (fun ev =>
    decide (now - range_days ≤ ev.timestamp) &&
      ev.connectivity_status == "disconnected" &&
      facilityPred facility_id ev.facility_id)

/-- SQL semantics of `RedshiftDataSource.get_disconnect_reasons`: filter
to disconnected events in range (and facility), group by
disconnect_reason (NULL forms its own group), emit count and
`ROUND(100.0 * COUNT(*) / SUM(COUNT(*)) OVER (), 2)`, ORDER BY count
DESC. -/
def get_disconnect_reasons (db : WarehouseDb) (now range_days : Int)
    (facility_id : Option String) : Except String QueryResult :=
  match validateTableAccess "connectivity" with
  | .error e => .error e
  | .ok _ =>
    let rowsF := survivingDisconnected db now range_days facility_id
    let counts := (dedupFirst (rowsF.map (·.disconnect_reason))).map (fun k =>
      (k, (rowsF.filter (fun ev => ev.disconnect_reason == k)).length))
    let sorted := sortBy (fun a b => decide (b.2 ≤ a.2)) counts
    let total := (counts.map Prod.snd).sum
    let rows := sorted.map (fun p =>
      [reasonCell p.1, Value.int (p.2 : Int),
        Value.rat (round2 ((100 * (p.2 : ℚ)) / (total : ℚ)))])
    .ok (format_result ["disconnect_reason", "count", "percentage"] rows
      range_days facility_id none)

/-- SQL semantics of `RedshiftDataSource.get_facility_summary`: the first
query emits, per metadata field in source order, one (metric, value) row
per matching metadata row, values cast to VARCHAR; the second emits
errors_total and errors_critical over the date-filtered errors of the
facility (aggregates without GROUP BY always return one row; SUM over an
empty set is NULL).  The two row sets are concatenated. -/
def get_facility_summary (db : WarehouseDb) (now : Int) (facility_id : String)
    (range_days : Int) : Except String QueryResult :=
  match validateTableAccess "facility_metadata" with
  | .error e => .error e
  | .ok _ =>
    let ms := db.facility_metadata.filter (fun m => m.facility_id == facility_id)
    let metaRows : List Row :=
      ms.map (fun m => [Value.str "location", Value.str m.location]) ++
      ms.map (fun m => [Value.str "opening_hours", Value.str m.opening_hours]) ++
      ms.map (fun m => [Value.str "subscription_status", Value.str m.subscription_status]) ++
      ms.map (fun m => [Value.str "units_deployed", Value.str (toString m.units_deployed)]) ++
      ms.map (fun m => [Value.str "usage_hours_30d", Value.str (toString m.usage_hours_30d)]) ++
      ms.map (fun m => [Value.str "strokes_tracked", Value.str (toString m.strokes_tracked)]) ++
      ms.map (fun m => [Value.str "tournaments_hosted", Value.str (toString m.tournaments_hosted)])
    match validateTableAccess "errors" with
    | .error e => .error e
    | .ok _ =>
      let cutoff := now - range_days
      let errs := db.errors.filter (fun ev =>
        ev.facility_id == facility_id && decide (cutoff ≤ ev.timestamp))
      let errRows : List Row :=
        [[Value.str "errors_total", Value.str (toString errs.length)],
         [Value.str "errors_critical",
          if errs.isEmpty then Value.null
          else Value.str (toString (errs.filter (fun ev => ev.severity == "critical")).length)]]
      .ok (format_result ["metric", "value"] (metaRows ++ errRows)
        range_days (some facility_id) none)

/-- SQL semantics of `RedshiftDataSource.get_data_quality_summary`. -/
def get_data_quality_summary (db : WarehouseDb) (now range_days : Int)
    (facility_id : Option String) : Except String QueryResult :=
  match validateTableAccess "data_quality" with
  | .error e => .error e
  | .ok _ =>
    let cutoff := now - range_days
    let rowsF := db.data_quality.filter (fun s =>
      decide (cutoff ≤ s.timestamp) && facilityPred facility_id s.facility_id)
    let rows := (dedupFirst (rowsF.map (·.facility_id))).map (fun f =>
      let grp := rowsF.filter (fun s => s.facility_id == f)
      [Value.str f,
        Value.rat (round2 ((grp.map (·.data_quality_score)).sum / (grp.length : ℚ))),
        Value.int ((grp.map (·.missing_records)).sum),
        Value.rat (round2 ((grp.map (·.latency_ms)).sum / (grp.length : ℚ)))])
    .ok (format_result ["facility_id", "avg_quality_score", "total_missing_records",
      "avg_latency_ms"] rows range_days facility_id none)

end Redshift

/-- Environment variables, the configuration surface. -/
structure Env where
  get : String → Option String

namespace Factory

/-- The required connection variables checked by `get_data_source`. -/
def REQUIRED_VARS : List String :=
  ["REDSHIFT_HOST", "REDSHIFT_DB", "REDSHIFT_USER", "REDSHIFT_PASSWORD"]

/-- Connection parameters read by `RedshiftDataSource.__init__`. -/
structure RedshiftParams where
  host : String
  port : String
  database : String
  user : String
  password : String
  schemaName : String
deriving DecidableEq

/-- `RedshiftDataSource.__init__`: reads the environment, defaults port
5439 and schema public, and fails when any required variable is missing
or empty (`not all([...])`). -/
def redshiftInit (env : Env) : Except String RedshiftParams :=
  let host := env.get "REDSHIFT_HOST"
  let db := env.get "REDSHIFT_DB"
  let user := env.get "REDSHIFT_USER"
  let pw := env.get "REDSHIFT_PASSWORD"
  if optStrTruthy host && optStrTruthy db && optStrTruthy user && optStrTruthy pw then
    .ok ⟨host.getD "", (env.get "REDSHIFT_PORT").getD "5439", db.getD "",
      user.getD "", pw.getD "", (env.get "REDSHIFT_SCHEMA").getD "public"⟩
  else
    .error "Missing required Redshift environment variables"

/-- The source selected by the factory. -/
inductive SourceChoice where
  | excel
  | redshift (params : RedshiftParams)
deriving DecidableEq

/-- Executable ASCII lowercase of one character. -/
def lowerChar (c : Char) : Char :=
  if 65 <= c.toNat && c.toNat <= 90 then Char.ofNat (c.toNat + 32) else c

/-- Executable model of Python `str.lower()` (ASCII range). -/
def pyLower (s : String) : String :=
  ⟨s.data.map lowerChar⟩

/-- `os.getenv("USE_REDSHIFT", "false").lower() == "true"`. -/
def useRedshiftFlag (env : Env) : Bool :=
  pyLower ((env.get "USE_REDSHIFT").getD "false") == "true"

/-- The required variables that are missing or empty
(`not os.getenv(var)`). -/
def missingVars (env : Env) : List String :=
  REQUIRED_VARS.filter (fun v => !(optStrTruthy (env.get v)))

/-- `data_source_factory.get_data_source` resolution.  The process-wide
caching is orthogonal to the choice and omitted; ExcelDataSource
construction is total because `_load_data` absorbs every failure, so the
excel branches carry no error case.  The warehouse construction attempt
is a parameter so that the verified fallback covers any construction
error; `redshiftInit` is the actual construction. -/
def getDataSource (env : Env)
    (construct : Env → Except String RedshiftParams) : SourceChoice :=
  if useRedshiftFlag env then
    if !(missingVars env).isEmpty then .excel
    else
      match construct env with
      | .error _ => .excel
      | .ok p => .redshift p
  else .excel

end Factory

/-- The answer object returned by the query tool (only the text fields
are modelled; the source document and token fields are constants in the
source). -/
structure Answer where
  question : String
  answer : String
deriving DecidableEq

/-- A resolved data source as the tool sees it: the six report
operations, each able to raise. -/
structure DataSource where
  get_errors_summary : Int → Option String → Except String QueryResult
  get_top_error_messages : Int → Int → Option String → Except String QueryResult
  get_connectivity_summary : Int → Option String → Except String QueryResult
  get_disconnect_reasons : Int → Option String → Except String QueryResult
  get_facility_summary : String → Int → Except String QueryResult
  get_data_quality_summary : Int → Option String → Except String QueryResult

namespace Tool

/-- `TrackmanQueryTool.VALID_INTENTS`. -/
def VALID_INTENTS : List String :=
  ["errors_summary", "top_error_messages", "connectivity_summary",
   "disconnect_reasons", "facility_summary", "data_quality_summary"]

/-- Python `str.title()` over space-separated words. -/
def pyTitle (s : String) : String :=
  String.intercalate " " ((s.splitOn " ").map String.capitalize)

/-- `TrackmanQueryTool._format_result`: the no-rows message, or summary
lines (title, source, row count, time range, and the facility when the
metadata carries a truthy one) followed by a markdown table.  The
range_days key is present in the metadata of every operation, so the
time-range line always appears. -/
def formatAnswerText (result : QueryResult) (intent : String) : String :=
  if result.rows.isEmpty then "No data found for the specified criteria."
  else
    let header := "| " ++ String.intercalate " | " result.columns ++ " |"
    let sep := "|" ++ String.intercalate "|" (result.columns.map (fun _ => "---")) ++ "|"
    let dataLines := result.rows.map (fun r =>
      "| " ++ String.intercalate " | " (r.map pyStr) ++ " |")
    let lines :=
      ["**Trackman " ++ pyTitle (intent.replace "_" " ") ++ " Report**",
       "Source: " ++ result.metadata.source,
       "Results: " ++ toString result.metadata.rowCount ++ " rows",
       "Time range: Last " ++ toString result.metadata.range_days ++ " days"] ++
      (if optStrTruthy result.metadata.facility_id then
        ["Facility: " ++ result.metadata.facility_id.getD ""] else []) ++
      [""] ++
      (if !result.columns.isEmpty && !result.rows.isEmpty then
        header :: sep :: dataLines else [])
    String.intercalate "\n" lines

/-- `facility_filter = facility_id if facility_id else None`. -/
def facilityFilterArg (facility_id : String) : Option String :=
  if facility_id == "" then none else some facility_id

/-- The descriptive message for an unrecognized report name (quote
characters of the host message omitted). -/
def invalidIntentMsg (intent : String) : String :=
  "Invalid intent " ++ intent ++ ". Must be one of: " ++
    String.intercalate ", " VALID_INTENTS

/-- The descriptive message when facility_summary lacks a facility id. -/
def missingFacilityMsg : String :=
  "facility_summary requires a facility_id parameter"

/-- The caught-exception message of the outer try block. -/
def caughtMsg (e : String) : String :=
  "Error executing Trackman query: " ++ e

/-- Rendering of a source call outcome: a successful result is formatted,
a raised error is caught and turned into the error-text answer. -/
def callAnswer (call : Except String QueryResult) (intent : String) : Answer :=
  match call with
  | .ok result => ⟨"", formatAnswerText result intent⟩
  | .error e => ⟨"", caughtMsg e⟩

/-- `TrackmanQueryTool.query_trackman`: validate the intent, convert a
falsy facility_id to no filter, reject facility_summary without a
facility id, dispatch to the source, and catch any raised error.  After
validation the six dispatch branches are exhaustive, the last one being
data_quality_summary. -/
def query_trackman (ds : DataSource) (intent : String) (range_days : Int)
    (facility_id : String) (limit : Int) : Answer :=
  if !(VALID_INTENTS.contains intent) then
    ⟨"", invalidIntentMsg intent⟩
  else if intent == "facility_summary" && facility_id == "" then
    ⟨"", missingFacilityMsg⟩
  else
    let facility_filter := facilityFilterArg facility_id
    let call : Except String QueryResult :=
      if intent == "errors_summary" then
        ds.get_errors_summary range_days facility_filter
      else if intent == "top_error_messages" then
        ds.get_top_error_messages range_days limit facility_filter
      else if intent == "connectivity_summary" then
        ds.get_connectivity_summary range_days facility_filter
      else if intent == "disconnect_reasons" then
        ds.get_disconnect_reasons range_days facility_filter
      else if intent == "facility_summary" then
        ds.get_facility_summary facility_id range_days
      else
        ds.get_data_quality_summary range_days facility_filter
    callAnswer call intent

end Tool


/-! Predicates and concrete inputs used by the verified properties. -/

/-- Shape invariant of a tabular result: every row is aligned with the
columns, and rows are empty exactly when the metadata rowCount is 0. -/
def resultShapeOk (r : QueryResult) : Prop :=
  (∀ row ∈ r.rows, row.length = r.columns.length) ∧
    (r.rows = [] ↔ r.metadata.rowCount = 0)

/-- Shape invariant of whatever an operation returns; a raised error
returns no result. -/
def exceptShapeOk : Except String QueryResult → Prop
  | .ok r => resultShapeOk r
  | .error _ => True

/-- The count cell of a top_error_messages row (column index 2). -/
def countCell (r : Row) : Int :=
  intOf (cellAt r 2)

/-- Count values are monotonically non-increasing in row order. -/
def nonIncreasingCounts (rows : List Row) : Prop :=
  rows.Chain' (fun r1 r2 => countCell r2 ≤ countCell r1)

/-- What top_error_messages guarantees about anything it returns: at most
`limit` rows, counts non-increasing. -/
def topBounded (limit : Int) : Except String QueryResult → Prop
  | .ok r => (r.rows.length : Int) ≤ limit ∧ nonIncreasingCounts r.rows
  | .error _ => True

/-- Sum of the percentage cells (column index 2) of a result. -/
def sumPercent (rows : List Row) : ℚ :=
  (rows.map (fun r => ratOf (cellAt r 2))).sum

/-- The disconnect_reasons percentage claim at one result: the returned
percentages sum to 100 up to the accumulated two-decimal rounding error
of the returned rows. -/
def percentSumOk : Except String QueryResult → Prop
  | .ok r => |sumPercent r.rows - 100| ≤ (r.rows.length : ℚ) * (1 / 200)
  | .error _ => False

namespace Excel

/-- The disconnected connectivity events surviving the date and facility
filters of the file-backed source. -/
def survivingDisconnected (data : ExcelData) (now range_days : Int)
    (facility_id : Option String) : List Row :=
  let df := filterByFacility (filterByDateRange data.connectivity now range_days)
    facility_id
  match df.colIdx "connectivity_status" with
  | some si => df.rows.filter (fun r => cellAt r si == Value.str "disconnected")
  | none => []

/-- The non-null disconnect_reason cells of the surviving disconnected
events (the cells value_counts keeps). -/
def survivingReasons (data : ExcelData) (now range_days : Int)
    (facility_id : Option String) : List Value :=
  let df := filterByFacility (filterByDateRange data.connectivity now range_days)
    facility_id
  match df.colIdx "connectivity_status", df.colIdx "disconnect_reason" with
  | some si, some ri =>
    nonNull (colCells
      (df.rows.filter (fun r => cellAt r si == Value.str "disconnected")) ri)
  | _, _ => []

end Excel

/-- Column layout of the errors sheet (section 6 of the spec). -/
def errColumns : List String :=
  ["timestamp", "facility_id", "unit_id", "unit_model", "error_code",
   "severity", "error_message"]

/-- Dataframe row of a logical error event. -/
def errRow (e : ErrorEvent) : Row :=
  [.int e.timestamp, .str e.facility_id, .str e.unit_id, .str e.unit_model,
   .str e.error_code, .str e.severity, .str e.error_message]

/-- The errors dataframe the file backend holds for a logical error
dataset. -/
def errorsToDf (l : List ErrorEvent) : DataFrame :=
  ⟨errColumns, l.map errRow⟩

/-- Column layout of the connectivity sheet. -/
def connColumns : List String :=
  ["timestamp", "facility_id", "unit_id", "connectivity_status",
   "disconnect_reason"]

/-- Dataframe row of a logical connectivity event (a missing reason is a
null cell). -/
def connRow (e : ConnEvent) : Row :=
  [.int e.timestamp, .str e.facility_id, .str e.unit_id,
   .str e.connectivity_status,
   match e.disconnect_reason with | some s => .str s | none => .null]

/-- The connectivity dataframe of a logical connectivity dataset. -/
def connToDf (l : List ConnEvent) : DataFrame :=
  ⟨connColumns, l.map connRow⟩

/-- The column-less empty dataframe `pd.DataFrame()`, the state
`_initialize_empty_data` leaves every dataset in. -/
def emptyDf : DataFrame :=
  ⟨[], []⟩

/-- The file-backed datasets after loading an empty directory. -/
def emptyExcelData : ExcelData :=
  ⟨emptyDf, emptyDf, emptyDf, emptyDf⟩

/-- An error event with critical severity (first in insertion order). -/
def evCritical : ErrorEvent :=
  ⟨0, "FAC001", "U1", "M1", "E001", "critical", "Sensor fault"⟩

/-- The same message and code as `evCritical` with severity low. -/
def evLow : ErrorEvent :=
  ⟨0, "FAC001", "U1", "M1", "E001", "low", "Sensor fault"⟩

/-- File-backed view of the two-event logical errors dataset. -/
def topExcelInput : ExcelData :=
  ⟨errorsToDf [evCritical, evLow], emptyDf, emptyDf, emptyDf⟩

/-- Warehouse view of the same logical errors dataset. -/
def topWarehouseInput : WarehouseDb :=
  ⟨[evCritical, evLow], [], [], []⟩

/-- A disconnected connectivity event whose reason is null. -/
def nullReasonEvent : ConnEvent :=
  ⟨0, "FAC001", "U1", "disconnected", none⟩

/-- File-backed datasets whose only connectivity event is disconnected
with a null reason. -/
def nullReasonData : ExcelData :=
  ⟨emptyDf, connToDf [nullReasonEvent], emptyDf, emptyDf⟩

/-- Disconnected events with reasons, for the amended-claim witness. -/
def reasonEvents : List ConnEvent :=
  [⟨0, "FAC001", "U1", "disconnected", some "network"⟩,
   ⟨0, "FAC001", "U2", "disconnected", some "power"⟩,
   ⟨0, "FAC001", "U2", "disconnected", some "network"⟩]

/-- File-backed view of `reasonEvents`. -/
def reasonData : ExcelData :=
  ⟨emptyDf, connToDf reasonEvents, emptyDf, emptyDf⟩

/-- Warehouse view of `reasonEvents`. -/
def reasonDb : WarehouseDb :=
  ⟨[], reasonEvents, [], []⟩

/-- A data source whose every operation raises. -/
def failingSource : DataSource :=
  ⟨fun _ _ => .error "boom", fun _ _ _ => .error "boom",
   fun _ _ => .error "boom", fun _ _ => .error "boom",
   fun _ _ => .error "boom", fun _ _ => .error "boom"⟩

/-- An environment with nothing set. -/
def envNoFlag : Env :=
  ⟨fun _ => none⟩

/-- The warehouse flag set with every connection variable missing. -/
def envFlagMissing : Env :=
  ⟨fun k => if k == "USE_REDSHIFT" then some "true" else none⟩

/-- The warehouse flag set with all connection variables present. -/
def envFull : Env :=
  ⟨fun k =>
    if k == "USE_REDSHIFT" then some "true"
    else if k == "REDSHIFT_HOST" then some "h"
    else if k == "REDSHIFT_DB" then some "d"
    else if k == "REDSHIFT_USER" then some "u"
    else if k == "REDSHIFT_PASSWORD" then some "p"
    else none⟩

/-- Metadata frame that has a facility_id column and no rows. -/
def metaColumnsOnlyData : ExcelData :=
  ⟨emptyDf, emptyDf, ⟨["facility_id"], []⟩, emptyDf⟩

/-- Rows contributed by one file, for the merge witness. -/
def fileA : List Row :=
  [[Value.str "a"]]

/-- Rows contributed by another file, disjoint from `fileA`. -/
def fileB : List Row :=
  [[Value.str "b"]]

/-! Helper lemmas. -/

theorem mem_dedupFirst [DecidableEq α] {x : α} {l : List α} :
    x ∈ dedupFirst l ↔ x ∈ l := by
  induction l with
  | nil => simp [dedupFirst]
  | cons a l ih =>
    simp only [dedupFirst, List.mem_cons, List.mem_filter, bne_iff_ne, ih]
    constructor
    · rintro (rfl | ⟨hx, _⟩)
      · exact Or.inl rfl
      · exact Or.inr hx
    · rintro (rfl | hx)
      · exact Or.inl rfl
      · by_cases hxa : x = a
        · exact Or.inl hxa
        · exact Or.inr ⟨hx, hxa⟩

theorem nodup_dedupFirst [DecidableEq α] (l : List α) : (dedupFirst l).Nodup := by
  induction l with
  | nil => simp [dedupFirst]
  | cons a l ih =>
    simp only [dedupFirst]
    refine List.Nodup.cons ?_ (ih.filter _)
    intro h
    rcases List.mem_filter.mp h with ⟨_, hne⟩
    exact (bne_iff_ne.mp hne) rfl

theorem toFinset_dedupFirst [DecidableEq α] (l : List α) :
    (dedupFirst l).toFinset = l.toFinset := by
  ext x
  simp [List.mem_toFinset, mem_dedupFirst]

theorem length_dedupFirst [DecidableEq α] (l : List α) :
    (dedupFirst l).length = l.toFinset.card := by
  rw [← toFinset_dedupFirst, List.toFinset_card_of_nodup (nodup_dedupFirst l)]

theorem perm_insertLe (le : α → α → Bool) (a : α) (l : List α) :
    (insertLe le a l).Perm (a :: l) := by
  induction l with
  | nil => exact List.Perm.refl _
  | cons b l ih =>
    simp only [insertLe]
    by_cases h : le a b
    · simp [h]
    · simp only [h, if_false]
      exact (ih.cons b).trans (List.Perm.swap a b l)

theorem perm_sortBy (le : α → α → Bool) (l : List α) : (sortBy le l).Perm l := by
  induction l with
  | nil => exact List.Perm.refl _
  | cons a l ih =>
    exact (perm_insertLe le a (sortBy le l)).trans (ih.cons a)

theorem pairwise_insertLe {le : α → α → Bool}
    (htot : ∀ a b, le a b = true ∨ le b a = true)
    (htr : ∀ a b c, le a b = true → le b c = true → le a c = true)
    {a : α} {l : List α} (h : l.Pairwise (le · · = true)) :
    (insertLe le a l).Pairwise (le · · = true) := by
  induction l with
  | nil => simp [insertLe]
  | cons b l ih =>
    rcases List.pairwise_cons.mp h with ⟨hb, hl⟩
    simp only [insertLe]
    by_cases hab : le a b
    · simp only [hab, if_true]
      refine List.pairwise_cons.mpr ⟨?_, h⟩
      intro x hx
      rcases List.mem_cons.mp hx with rfl | hx
      · exact hab
      · exact htr a b x hab (hb x hx)
    · simp only [hab, if_false]
      refine List.pairwise_cons.mpr ⟨?_, ih hl⟩
      intro x hx
      have hx' : x = a ∨ x ∈ l :=
        List.mem_cons.mp ((perm_insertLe le a l).mem_iff.mp hx)
      rcases hx' with hxa | hx'
      · rcases htot a b with hab' | hba
        · exact absurd hab' hab
        · exact hxa ▸ hba
      · exact hb x hx'

theorem pairwise_sortBy {le : α → α → Bool}
    (htot : ∀ a b, le a b = true ∨ le b a = true)
    (htr : ∀ a b c, le a b = true → le b c = true → le a c = true)
    (l : List α) : (sortBy le l).Pairwise (le · · = true) := by
  induction l with
  | nil => simp [sortBy]
  | cons a l ih => exact pairwise_insertLe htot htr ih

theorem abs_round2_sub (q : ℚ) : |round2 q - q| ≤ 1 / 200 := by
  have h : |(((round (q * 100) : ℤ) : ℚ)) - q * 100| ≤ 1 / 2 := by
    have h0 := abs_sub_round (α := ℚ) (q * 100)
    rwa [abs_sub_comm] at h0
  have key : round2 q - q = (((round (q * 100) : ℤ) : ℚ) - q * 100) / 100 := by
    rw [round2]; ring
  rw [key, abs_div, show |(100 : ℚ)| = 100 by norm_num]
  have hstep : |(((round (q * 100) : ℤ) : ℚ)) - q * 100| / 100 ≤ (1 / 2) / 100 := by
    gcongr
  exact hstep.trans (by norm_num)

theorem resultShapeOk_format_result_empty {df : DataFrame} (rd : Int)
    (fid : Option String) (lim : Option Int) (hdf : df.empty = true) :
    resultShapeOk (Excel.formatResult df rd fid lim) := by
  simp [Excel.formatResult, hdf, resultShapeOk]

theorem resultShapeOk_formatResult {df : DataFrame} (rd : Int) (fid : Option String)
    (lim : Option Int) (h : ∀ row ∈ df.rows, row.length = df.columns.length) :
    resultShapeOk (Excel.formatResult df rd fid lim) := by
  cases hdf : df.empty with
  | true => simp [Excel.formatResult, hdf, resultShapeOk]
  | false =>
    simp only [resultShapeOk, Excel.formatResult, hdf, Bool.false_eq_true, if_false]
    refine ⟨?_, ?_⟩
    · intro row hr
      rcases List.mem_map.mp hr with ⟨r0, hr0, rfl⟩
      simpa using h r0 hr0
    · simp [List.length_eq_zero]

theorem resultShapeOk_redshift_format {cols : List String} {rows : List Row}
    (rd : Int) (fid : Option String) (lim : Option Int)
    (h : ∀ row ∈ rows, row.length = cols.length) :
    resultShapeOk (Redshift.format_result cols rows rd fid lim) := by
  refine ⟨h, ?_⟩
  simp [Redshift.format_result, List.length_eq_zero]

theorem excel_errors_summary_shapeOk (data : ExcelData) (now rd : Int)
    (fid : Option String) :
    exceptShapeOk (Excel.get_errors_summary data now rd fid) := by
  unfold Excel.get_errors_summary
  dsimp only
  split
  · exact resultShapeOk_format_result_empty rd fid none (by assumption)
  · split
    · refine resultShapeOk_formatResult rd fid none ?_
      intro row hr
      rcases List.mem_map.mp hr with ⟨k, _, rfl⟩
      rfl
    · trivial
    · trivial
    · trivial

theorem excel_top_shapeOk (data : ExcelData) (now rd lim : Int)
    (fid : Option String) :
    exceptShapeOk (Excel.get_top_error_messages data now rd lim fid) := by
  unfold Excel.get_top_error_messages
  dsimp only
  split
  · exact resultShapeOk_format_result_empty rd fid (some lim) (by assumption)
  · split
    · trivial
    · trivial
    · trivial
    · trivial

theorem excel_connectivity_shapeOk (data : ExcelData) (now rd : Int)
    (fid : Option String) :
    exceptShapeOk (Excel.get_connectivity_summary data now rd fid) := by
  unfold Excel.get_connectivity_summary
  dsimp only
  split
  · exact resultShapeOk_format_result_empty rd fid none (by assumption)
  · split
    · refine resultShapeOk_formatResult rd fid none ?_
      intro row hr
      rcases List.mem_map.mp hr with ⟨k, _, rfl⟩
      rfl
    · trivial
    · trivial

theorem excel_disconnect_shapeOk (data : ExcelData) (now rd : Int)
    (fid : Option String) :
    exceptShapeOk (Excel.get_disconnect_reasons data now rd fid) := by
  unfold Excel.get_disconnect_reasons
  dsimp only
  split
  · exact resultShapeOk_format_result_empty rd fid none (by assumption)
  · split
    · trivial
    · split
      · exact resultShapeOk_format_result_empty rd fid none (by assumption)
      · split
        · trivial
        · refine resultShapeOk_formatResult rd fid none ?_
          intro row hr
          rcases List.mem_map.mp hr with ⟨p, _, rfl⟩
          rfl

theorem excel_quality_shapeOk (data : ExcelData) (now rd : Int)
    (fid : Option String) :
    exceptShapeOk (Excel.get_data_quality_summary data now rd fid) := by
  unfold Excel.get_data_quality_summary
  dsimp only
  split
  · exact resultShapeOk_format_result_empty rd fid none (by assumption)
  · split
    · refine resultShapeOk_formatResult rd fid none ?_
      intro row hr
      rcases List.mem_map.mp hr with ⟨k, _, rfl⟩
      rfl
    · trivial
    · trivial
    · trivial
    · trivial

theorem len_of_mem_filterMap_pair {α : Type} {l : List α} {f : α → Option Row}
    (hf : ∀ a r, f a = some r → r.length = 2) :
    ∀ row ∈ l.filterMap f, row.length = 2 := by
  intro row hr
  rcases List.mem_filterMap.mp hr with ⟨a, _, ha⟩
  exact hf a row ha

theorem excel_facility_summary_shapeOk (data : ExcelData) (now : Int)
    (fid : String) (rd : Int) :
    exceptShapeOk (Excel.get_facility_summary data now fid rd) := by
  have hpairs : ∀ (fr : Row) (a : Nat × String) (r : Row),
      (if (a.2 == "facility_id") = true then none
       else some [Value.str a.2, Value.str (pyStr (cellAt fr a.1))]) = some r →
      r.length = 2 := by
    intro fr a r h
    split at h
    · exact absurd h (by simp)
    · injection h with h
      subst h
      rfl
  unfold Excel.get_facility_summary
  dsimp only
  split
  · trivial
  · split
    · exact resultShapeOk_format_result_empty rd (some fid) none rfl
    · split
      · trivial
      · split
        · trivial
        · rename_i m1 heq1
          split
          · trivial
          · split
            · trivial
            · rename_i m2 heq2
              split
              · trivial
              · split
                · trivial
                · rename_i m3 heq3
                  refine resultShapeOk_formatResult rd (some fid) none ?_
                  have h1 : ∀ row ∈ m1, row.length = 2 := by
                    split at heq1
                    · injection heq1 with h
                      subst h
                      exact len_of_mem_filterMap_pair (hpairs _)
                    · split at heq1
                      · exact nomatch heq1
                      · injection heq1 with h
                        subst h
                        intro row hr
                        rcases List.mem_append.mp hr with hr | hr
                        · exact len_of_mem_filterMap_pair (hpairs _) row hr
                        · simp only [List.mem_cons, List.not_mem_nil, or_false] at hr
                          rcases hr with rfl | rfl <;> rfl
                  have h2 : ∀ row ∈ m2, row.length = 2 := by
                    split at heq2
                    · injection heq2 with h
                      subst h
                      exact h1
                    · split at heq2
                      · exact nomatch heq2
                      · injection heq2 with h
                        subst h
                        intro row hr
                        rcases List.mem_append.mp hr with hr | hr
                        · exact h1 row hr
                        · simp only [List.mem_cons, List.not_mem_nil, or_false] at hr
                          subst hr
                          rfl
                  have h3 : ∀ row ∈ m3, row.length = 2 := by
                    split at heq3
                    · injection heq3 with h
                      subst h
                      exact h2
                    · split at heq3
                      · exact nomatch heq3
                      · injection heq3 with h
                        subst h
                        intro row hr
                        rcases List.mem_append.mp hr with hr | hr
                        · exact h2 row hr
                        · simp only [List.mem_cons, List.not_mem_nil, or_false] at hr
                          subst hr
                          rfl
                  exact h3

theorem redshift_errors_summary_shapeOk (db : WarehouseDb) (now rd : Int)
    (fid : Option String) :
    exceptShapeOk (Redshift.get_errors_summary db now rd fid) := by
  unfold Redshift.get_errors_summary
  dsimp only
  split
  · trivial
  · refine resultShapeOk_redshift_format rd fid none ?_
    intro row hr
    rcases List.mem_map.mp hr with ⟨k, _, rfl⟩
    rfl

theorem redshift_top_shapeOk (db : WarehouseDb) (now rd lim : Int)
    (fid : Option String) :
    exceptShapeOk (Redshift.get_top_error_messages db now rd lim fid) := by
  unfold Redshift.get_top_error_messages
  dsimp only
  split
  · trivial
  · refine resultShapeOk_redshift_format rd fid (some lim) ?_
    intro row hr
    rcases List.mem_map.mp hr with ⟨g, _, rfl⟩
    rfl

theorem redshift_connectivity_shapeOk (db : WarehouseDb) (now rd : Int)
    (fid : Option String) :
    exceptShapeOk (Redshift.get_connectivity_summary db now rd fid) := by
  unfold Redshift.get_connectivity_summary
  dsimp only
  split
  · trivial
  · refine resultShapeOk_redshift_format rd fid none ?_
    intro row hr
    rcases List.mem_map.mp hr with ⟨k, _, rfl⟩
    rfl

theorem redshift_disconnect_shapeOk (db : WarehouseDb) (now rd : Int)
    (fid : Option String) :
    exceptShapeOk (Redshift.get_disconnect_reasons db now rd fid) := by
  unfold Redshift.get_disconnect_reasons
  dsimp only
  split
  · trivial
  · refine resultShapeOk_redshift_format rd fid none ?_
    intro row hr
    rcases List.mem_map.mp hr with ⟨p, _, rfl⟩
    rfl

theorem redshift_quality_shapeOk (db : WarehouseDb) (now rd : Int)
    (fid : Option String) :
    exceptShapeOk (Redshift.get_data_quality_summary db now rd fid) := by
  unfold Redshift.get_data_quality_summary
  dsimp only
  split
  · trivial
  · refine resultShapeOk_redshift_format rd fid none ?_
    intro row hr
    rcases List.mem_map.mp hr with ⟨k, _, rfl⟩
    rfl

theorem len2_map {α : Type} (ms : List α) (f g : α → Value) (n : Nat)
    (hn : 2 = n) : ∀ row ∈ ms.map (fun m => [f m, g m]), row.length = n := by
  intro row hr
  rcases List.mem_map.mp hr with ⟨m, _, rfl⟩
  exact hn

theorem redshift_facility_summary_shapeOk (db : WarehouseDb) (now : Int)
    (fid : String) (rd : Int) :
    exceptShapeOk (Redshift.get_facility_summary db now fid rd) := by
  unfold Redshift.get_facility_summary
  dsimp only
  split
  · trivial
  · split
    · trivial
    · refine resultShapeOk_redshift_format rd (some fid) none ?_
      refine List.forall_mem_append.mpr ⟨?_, ?_⟩
      · refine List.forall_mem_append.mpr ⟨?_, len2_map _ _ _ _ rfl⟩
        refine List.forall_mem_append.mpr ⟨?_, len2_map _ _ _ _ rfl⟩
        refine List.forall_mem_append.mpr ⟨?_, len2_map _ _ _ _ rfl⟩
        refine List.forall_mem_append.mpr ⟨?_, len2_map _ _ _ _ rfl⟩
        refine List.forall_mem_append.mpr ⟨?_, len2_map _ _ _ _ rfl⟩
        refine List.forall_mem_append.mpr ⟨?_, len2_map _ _ _ _ rfl⟩
        exact len2_map _ _ _ _ rfl
      · intro row hr
        simp only [List.mem_cons, List.not_mem_nil, or_false] at hr
        rcases hr with rfl | rfl <;> rfl

/-- C2: for every result returned by any of the six report operations, on
either backend, every row has exactly as many values as there are column
names, and the rows list is empty exactly when the metadata rowCount
is 0 (operations that raise return no result). -/
theorem c2_result_shape_invariant :
    ∀ (data : ExcelData) (db : WarehouseDb) (now range_days limit : Int)
      (facility_id : Option String) (fid : String),
    exceptShapeOk (Excel.get_errors_summary data now range_days facility_id) ∧
    exceptShapeOk (Excel.get_top_error_messages data now range_days limit facility_id) ∧
    exceptShapeOk (Excel.get_connectivity_summary data now range_days facility_id) ∧
    exceptShapeOk (Excel.get_disconnect_reasons data now range_days facility_id) ∧
    exceptShapeOk (Excel.get_facility_summary data now fid range_days) ∧
    exceptShapeOk (Excel.get_data_quality_summary data now range_days facility_id) ∧
    exceptShapeOk (Redshift.get_errors_summary db now range_days facility_id) ∧
    exceptShapeOk (Redshift.get_top_error_messages db now range_days limit facility_id) ∧
    exceptShapeOk (Redshift.get_connectivity_summary db now range_days facility_id) ∧
    exceptShapeOk (Redshift.get_disconnect_reasons db now range_days facility_id) ∧
    exceptShapeOk (Redshift.get_facility_summary db now fid range_days) ∧
    exceptShapeOk (Redshift.get_data_quality_summary db now range_days facility_id) :=
  fun data db now rd lim facility_id fid =>
    ⟨excel_errors_summary_shapeOk data now rd facility_id,
     excel_top_shapeOk data now rd lim facility_id,
     excel_connectivity_shapeOk data now rd facility_id,
     excel_disconnect_shapeOk data now rd facility_id,
     excel_facility_summary_shapeOk data now fid rd,
     excel_quality_shapeOk data now rd facility_id,
     redshift_errors_summary_shapeOk db now rd facility_id,
     redshift_top_shapeOk db now rd lim facility_id,
     redshift_connectivity_shapeOk db now rd facility_id,
     redshift_disconnect_shapeOk db now rd facility_id,
     redshift_facility_summary_shapeOk db now fid rd,
     redshift_quality_shapeOk db now rd facility_id⟩

/-- C9: for every file-backed report operation, a dataset that is empty
after the date and facility filters yields a result with empty columns,
empty rows, rowCount 0 and metadata still carrying range_days and the
facility filter (for facility_summary: the metadata frame has a
facility_id column and no row matches the facility). -/
theorem c9_empty_result :
    ∀ (data : ExcelData) (now range_days limit : Int) (facility_id : Option String)
      (fid : String) (fi : Nat),
    ((Excel.filterByFacility (Excel.filterByDateRange data.errors now range_days)
        facility_id).rows = [] →
      Excel.get_errors_summary data now range_days facility_id =
        .ok ⟨[], [], ⟨range_days, facility_id, none, "excel", 0⟩⟩) ∧
    ((Excel.filterByFacility (Excel.filterByDateRange data.errors now range_days)
        facility_id).rows = [] →
      Excel.get_top_error_messages data now range_days limit facility_id =
        .ok ⟨[], [], ⟨range_days, facility_id, some limit, "excel", 0⟩⟩) ∧
    ((Excel.filterByFacility (Excel.filterByDateRange data.connectivity now range_days)
        facility_id).rows = [] →
      Excel.get_connectivity_summary data now range_days facility_id =
        .ok ⟨[], [], ⟨range_days, facility_id, none, "excel", 0⟩⟩) ∧
    ((Excel.filterByFacility (Excel.filterByDateRange data.connectivity now range_days)
        facility_id).rows = [] →
      Excel.get_disconnect_reasons data now range_days facility_id =
        .ok ⟨[], [], ⟨range_days, facility_id, none, "excel", 0⟩⟩) ∧
    ((Excel.filterByFacility (Excel.filterByDateRange data.data_quality now range_days)
        facility_id).rows = [] →
      Excel.get_data_quality_summary data now range_days facility_id =
        .ok ⟨[], [], ⟨range_days, facility_id, none, "excel", 0⟩⟩) ∧
    (data.facility_metadata.colIdx "facility_id" = some fi →
      data.facility_metadata.rows.filter (fun r => cellAt r fi == Value.str fid) = [] →
      Excel.get_facility_summary data now fid range_days =
        .ok ⟨[], [], ⟨range_days, some fid, none, "excel", 0⟩⟩) := by
  intro data now rd lim facility_id fid fi
  refine ⟨?_, ?_, ?_, ?_, ?_, ?_⟩
  · intro h
    simp [Excel.get_errors_summary, Excel.formatResult, DataFrame.empty, h]
  · intro h
    simp [Excel.get_top_error_messages, Excel.formatResult, DataFrame.empty, h]
  · intro h
    simp [Excel.get_connectivity_summary, Excel.formatResult, DataFrame.empty, h]
  · intro h
    simp [Excel.get_disconnect_reasons, Excel.formatResult, DataFrame.empty, h]
  · intro h
    simp [Excel.get_data_quality_summary, Excel.formatResult, DataFrame.empty, h]
  · intro hfi hfilter
    simp [Excel.get_facility_summary, requireCol, hfi, hfilter, Excel.formatResult,
      DataFrame.empty]

/-- Witness for c9_empty_result: the empty file-backed datasets (with a
facility_id column on the metadata frame) produce empty results with the
request parameters in the metadata. -/
theorem c9_empty_result_witness :
    Excel.get_errors_summary metaColumnsOnlyData 0 30 none =
      .ok ⟨[], [], ⟨30, none, none, "excel", 0⟩⟩ ∧
    Excel.get_top_error_messages metaColumnsOnlyData 0 30 10 none =
      .ok ⟨[], [], ⟨30, none, some 10, "excel", 0⟩⟩ ∧
    Excel.get_connectivity_summary metaColumnsOnlyData 0 30 none =
      .ok ⟨[], [], ⟨30, none, none, "excel", 0⟩⟩ ∧
    Excel.get_disconnect_reasons metaColumnsOnlyData 0 30 none =
      .ok ⟨[], [], ⟨30, none, none, "excel", 0⟩⟩ ∧
    Excel.get_data_quality_summary metaColumnsOnlyData 0 30 none =
      .ok ⟨[], [], ⟨30, none, none, "excel", 0⟩⟩ ∧
    Excel.get_facility_summary metaColumnsOnlyData 0 "FAC001" 30 =
      .ok ⟨[], [], ⟨30, some "FAC001", none, "excel", 0⟩⟩ := by
  have h := c9_empty_result metaColumnsOnlyData 0 30 10 none "FAC001" 0
  exact ⟨h.1 rfl, h.2.1 rfl, h.2.2.1 rfl, h.2.2.2.1 rfl, h.2.2.2.2.1 rfl,
    h.2.2.2.2.2 rfl rfl⟩

/-- C4: the code raises on the failing input.  With the facility_metadata
dataset in the column-less empty state that an empty data directory
produces, get_facility_summary raises a KeyError on the facility_id
column access instead of returning an empty result. -/
theorem c4_facility_summary_keyerror :
    Excel.get_facility_summary emptyExcelData 0 "FAC001" 30 =
      .error "KeyError: facility_id" := rfl

/-- C1: the two backends diverge on top_error_messages over the same
logical errors dataset.  On a dataset of two events sharing message and
code (severities critical then low, both in range), the file-backed
source raises (the aggregation names the grouping column error_code, so
the reset_index step cannot complete), while the warehouse-backed source
returns one grouped row; the returned severity is MAX(severity) = low,
not the first-seen value critical. -/
theorem c1_top_backend_divergence :
    Excel.get_top_error_messages topExcelInput 0 30 10 none =
      .error "ValueError: cannot insert error_code, already exists" ∧
    Redshift.get_top_error_messages topWarehouseInput 0 30 10 none =
      .ok ⟨["error_message", "error_code", "count", "severity"],
        [[.str "Sensor fault", .str "E001", .int 2, .str "low"]],
        ⟨30, none, some 10, "redshift", 1⟩⟩ :=
  ⟨rfl, by rfl⟩

theorem countCell_topRow (g : Redshift.TopGroup) :
    countCell (Redshift.topRow g) = (g.count : Int) := rfl

/-- C6: for every positive limit N and all datasets, top_error_messages
returns at most N rows with counts monotonically non-increasing, on both
backends (the file backend returns either the empty result or raises, so
every result it returns satisfies the bound as well). -/
theorem c6_top_limit_monotone :
    ∀ (data : ExcelData) (db : WarehouseDb) (now range_days limit : Int)
      (facility_id : Option String), 0 < limit →
    topBounded limit (Excel.get_top_error_messages data now range_days limit facility_id) ∧
    topBounded limit (Redshift.get_top_error_messages db now range_days limit facility_id) := by
  intro data db now rd lim fid hlim
  constructor
  · unfold Excel.get_top_error_messages
    dsimp only
    split
    · rename_i h
      simp only [topBounded, Excel.formatResult, h, if_true, nonIncreasingCounts]
      refine ⟨?_, by simp⟩
      simpa using hlim.le
    · split
      · trivial
      · trivial
      · trivial
      · trivial
  · unfold Redshift.get_top_error_messages
    dsimp only
    split
    · trivial
    · set gs := Redshift.topGroups (db.errors.filter (fun ev =>
        decide (now - rd ≤ ev.timestamp) && Redshift.facilityPred fid ev.facility_id))
        with hgs
      refine ⟨?_, ?_⟩
      · have h1 : ((sortBy Redshift.topGroupGe gs).take lim.toNat).length ≤
            lim.toNat := List.length_take_le _ _
        calc ((((sortBy Redshift.topGroupGe gs).take lim.toNat).map
              Redshift.topRow).length : Int)
            = (((sortBy Redshift.topGroupGe gs).take lim.toNat).length : Int) := by
              rw [List.length_map]
          _ ≤ (lim.toNat : Int) := Int.ofNat_le.mpr h1
          _ = lim := Int.toNat_of_nonneg hlim.le
      · have htot : ∀ a b : Redshift.TopGroup,
            Redshift.topGroupGe a b = true ∨ Redshift.topGroupGe b a = true := by
          intro a b
          simp only [Redshift.topGroupGe, decide_eq_true_eq]
          exact Nat.le_total b.count a.count
        have htr : ∀ a b c : Redshift.TopGroup, Redshift.topGroupGe a b = true →
            Redshift.topGroupGe b c = true → Redshift.topGroupGe a c = true := by
          intro a b c hab hbc
          simp only [Redshift.topGroupGe, decide_eq_true_eq] at *
          omega
        have hp := pairwise_sortBy htot htr gs
        have hp2 := hp.sublist (List.take_sublist lim.toNat _)
        refine List.Pairwise.chain' ?_
        refine hp2.map Redshift.topRow ?_
        intro a b hab
        simp only [Redshift.topGroupGe, decide_eq_true_eq] at hab
        simpa [countCell_topRow] using Int.ofNat_le.mpr hab

/-- Witness for c6_top_limit_monotone at a concrete positive limit and
concrete datasets. -/
theorem c6_top_limit_monotone_witness :
    topBounded 3 (Excel.get_top_error_messages topExcelInput 0 30 3 none) ∧
    topBounded 3 (Redshift.get_top_error_messages topWarehouseInput 0 30 3 none) :=
  c6_top_limit_monotone topExcelInput topWarehouseInput 0 30 3 none (by norm_num)

theorem perm_flatten {α : Type} {l1 l2 : List (List α)} (h : l1.Perm l2) :
    l1.flatten.Perm l2.flatten := by
  induction h with
  | nil => exact List.Perm.refl _
  | cons x _ ih => simpa using ih.append_left x
  | swap x y l =>
    simp only [List.flatten_cons]
    rw [← List.append_assoc, ← List.append_assoc]
    exact List.perm_append_comm.append_right _
  | trans _ _ ih1 ih2 => exact ih1.trans ih2

theorem toFinset_flatten {α : Type} [DecidableEq α] (files : List (List α)) :
    files.flatten.toFinset = files.foldr (fun f s => f.toFinset ∪ s) ∅ := by
  induction files with
  | nil => simp
  | cons f fs ih => simp [List.toFinset_append, ih]

/-- C5: the merged row set of the file backend is the deduplicated union
of the rows of all input files, independent of file enumeration order;
merging two files with disjoint row sets gives a dataset whose row count
is the sum of the two single-file dataset counts, and merging two
identical files gives one file's dataset count. -/
theorem c5_merge_dedup_union :
    (∀ files : List (List Row),
      (Excel.loadMerge files).toFinset =
        files.foldr (fun f s => f.toFinset ∪ s) ∅) ∧
    (∀ files1 files2 : List (List Row), files1.Perm files2 →
      (Excel.loadMerge files1).toFinset = (Excel.loadMerge files2).toFinset) ∧
    (∀ A B : List Row, (∀ r ∈ A, r ∉ B) →
      (Excel.loadMerge [A, B]).length =
        (Excel.loadMerge [A]).length + (Excel.loadMerge [B]).length) ∧
    (∀ A : List Row,
      (Excel.loadMerge [A, A]).length = (Excel.loadMerge [A]).length) := by
  refine ⟨?_, ?_, ?_, ?_⟩
  · intro files
    rw [Excel.loadMerge, toFinset_dedupFirst, toFinset_flatten]
  · intro files1 files2 h
    rw [Excel.loadMerge, Excel.loadMerge, toFinset_dedupFirst, toFinset_dedupFirst]
    exact List.toFinset_eq_of_perm _ _ (perm_flatten h)
  · intro A B h
    have hd : Disjoint A.toFinset B.toFinset := by
      rw [Finset.disjoint_left]
      intro a ha hb
      exact h a (List.mem_toFinset.mp ha) (List.mem_toFinset.mp hb)
    rw [Excel.loadMerge, Excel.loadMerge, Excel.loadMerge,
      length_dedupFirst, length_dedupFirst, length_dedupFirst]
    simp only [List.flatten, List.append_nil]
    rw [List.toFinset_append, Finset.card_union_of_disjoint hd]
  · intro A
    rw [Excel.loadMerge, Excel.loadMerge, length_dedupFirst, length_dedupFirst]
    simp [List.flatten, List.toFinset_append]

/-- Witness for c5_merge_dedup_union: two concrete one-row files with
disjoint rows, and the same file twice. -/
theorem c5_merge_dedup_union_witness :
    (Excel.loadMerge [fileA, fileB]).toFinset =
      (Excel.loadMerge [fileB, fileA]).toFinset ∧
    (Excel.loadMerge [fileA, fileB]).length =
      (Excel.loadMerge [fileA]).length + (Excel.loadMerge [fileB]).length ∧
    (Excel.loadMerge [fileA, fileA]).length = (Excel.loadMerge [fileA]).length :=
  ⟨c5_merge_dedup_union.2.1 [fileA, fileB] [fileB, fileA]
      (List.Perm.swap fileB fileA []),
    c5_merge_dedup_union.2.2.1 fileA fileB (by decide),
    c5_merge_dedup_union.2.2.2 fileA⟩

/-- C3: source-selector resolution never fails and prefers safe
degradation: flag unset (or not "true") gives the file-backed source;
flag set with a missing or empty required connection variable gives the
file-backed source; flag set, variables present, but construction
raising gives the file-backed source; only otherwise the warehouse
source.  Totality is expressed by the codomain: resolution is a total
function into SourceChoice. -/
theorem c3_factory_resolution :
    ∀ (env : Env) (construct : Env → Except String Factory.RedshiftParams)
      (p : Factory.RedshiftParams) (e : String),
    (Factory.useRedshiftFlag env = false →
      Factory.getDataSource env construct = .excel) ∧
    (Factory.useRedshiftFlag env = true → Factory.missingVars env ≠ [] →
      Factory.getDataSource env construct = .excel) ∧
    (Factory.useRedshiftFlag env = true → Factory.missingVars env = [] →
      construct env = .error e → Factory.getDataSource env construct = .excel) ∧
    (Factory.useRedshiftFlag env = true → Factory.missingVars env = [] →
      construct env = .ok p → Factory.getDataSource env construct = .redshift p) := by
  intro env construct p e
  refine ⟨?_, ?_, ?_, ?_⟩
  · intro h
    simp [Factory.getDataSource, h]
  · intro h hm
    have hne : (Factory.missingVars env).isEmpty = false := by
      simpa [List.isEmpty_iff] using hm
    simp [Factory.getDataSource, h, hne]
  · intro h hm hc
    simp [Factory.getDataSource, h, hm, hc]
  · intro h hm hc
    simp [Factory.getDataSource, h, hm, hc]

/-- Witness for c3_factory_resolution on concrete environments with the
actual construction function. -/
theorem c3_factory_resolution_witness :
    Factory.getDataSource envNoFlag Factory.redshiftInit = .excel ∧
    Factory.getDataSource envFlagMissing Factory.redshiftInit = .excel ∧
    Factory.getDataSource envFull Factory.redshiftInit =
      .redshift ⟨"h", "5439", "d", "u", "p", "public"⟩ :=
  ⟨(c3_factory_resolution envNoFlag Factory.redshiftInit
      ⟨"", "", "", "", "", ""⟩ "").1 (by decide),
   (c3_factory_resolution envFlagMissing Factory.redshiftInit
      ⟨"", "", "", "", "", ""⟩ "").2.1 (by decide) (by decide),
   (c3_factory_resolution envFull Factory.redshiftInit
      ⟨"h", "5439", "d", "u", "p", "public"⟩ "").2.2.2 (by decide) (by decide) rfl⟩

/-- C8: the query dispatcher never propagates an exception: an intent
outside the closed set yields the descriptive invalid-intent answer;
facility_summary with a missing (empty) facility_id yields the
descriptive missing-facility answer; any error raised by the underlying
source, on any of the six report calls, is caught and converted into the
error-text answer.  Totality is expressed by the codomain: the dispatcher
is a total function into Answer. -/
theorem c8_dispatcher_total :
    ∀ (ds : DataSource) (intent : String) (range_days limit : Int)
      (facility_id : String) (e : String),
    (Tool.VALID_INTENTS.contains intent = false →
      Tool.query_trackman ds intent range_days facility_id limit =
        ⟨"", Tool.invalidIntentMsg intent⟩) ∧
    (Tool.query_trackman ds "facility_summary" range_days "" limit =
      ⟨"", Tool.missingFacilityMsg⟩) ∧
    (ds.get_errors_summary range_days (Tool.facilityFilterArg facility_id) =
        .error e →
      Tool.query_trackman ds "errors_summary" range_days facility_id limit =
        ⟨"", Tool.caughtMsg e⟩) ∧
    (ds.get_top_error_messages range_days limit
        (Tool.facilityFilterArg facility_id) = .error e →
      Tool.query_trackman ds "top_error_messages" range_days facility_id limit =
        ⟨"", Tool.caughtMsg e⟩) ∧
    (ds.get_connectivity_summary range_days (Tool.facilityFilterArg facility_id) =
        .error e →
      Tool.query_trackman ds "connectivity_summary" range_days facility_id limit =
        ⟨"", Tool.caughtMsg e⟩) ∧
    (ds.get_disconnect_reasons range_days (Tool.facilityFilterArg facility_id) =
        .error e →
      Tool.query_trackman ds "disconnect_reasons" range_days facility_id limit =
        ⟨"", Tool.caughtMsg e⟩) ∧
    (facility_id ≠ "" → ds.get_facility_summary facility_id range_days = .error e →
      Tool.query_trackman ds "facility_summary" range_days facility_id limit =
        ⟨"", Tool.caughtMsg e⟩) ∧
    (ds.get_data_quality_summary range_days (Tool.facilityFilterArg facility_id) =
        .error e →
      Tool.query_trackman ds "data_quality_summary" range_days facility_id limit =
        ⟨"", Tool.caughtMsg e⟩) := by
  intro ds intent range_days limit facility_id e
  refine ⟨?_, ?_, ?_, ?_, ?_, ?_, ?_, ?_⟩
  · intro h
    unfold Tool.query_trackman
    rw [h]
    rfl
  · rfl
  · intro h
    have step : Tool.query_trackman ds "errors_summary" range_days facility_id limit =
        Tool.callAnswer (ds.get_errors_summary range_days
          (Tool.facilityFilterArg facility_id)) "errors_summary" := rfl
    rw [step, h]
    rfl
  · intro h
    have step : Tool.query_trackman ds "top_error_messages" range_days facility_id
        limit = Tool.callAnswer (ds.get_top_error_messages range_days limit
          (Tool.facilityFilterArg facility_id)) "top_error_messages" := rfl
    rw [step, h]
    rfl
  · intro h
    have step : Tool.query_trackman ds "connectivity_summary" range_days facility_id
        limit = Tool.callAnswer (ds.get_connectivity_summary range_days
          (Tool.facilityFilterArg facility_id)) "connectivity_summary" := rfl
    rw [step, h]
    rfl
  · intro h
    have step : Tool.query_trackman ds "disconnect_reasons" range_days facility_id
        limit = Tool.callAnswer (ds.get_disconnect_reasons range_days
          (Tool.facilityFilterArg facility_id)) "disconnect_reasons" := rfl
    rw [step, h]
    rfl
  · intro hne h
    have hb : (facility_id == "") = false := by
      simpa using hne
    have step : Tool.query_trackman ds "facility_summary" range_days facility_id
        limit = Tool.callAnswer (ds.get_facility_summary facility_id range_days)
          "facility_summary" := by
      unfold Tool.query_trackman
      rw [hb]
      rfl
    rw [step, h]
    rfl
  · intro h
    have step : Tool.query_trackman ds "data_quality_summary" range_days facility_id
        limit = Tool.callAnswer (ds.get_data_quality_summary range_days
          (Tool.facilityFilterArg facility_id)) "data_quality_summary" := rfl
    rw [step, h]
    rfl

/-- Witness for c8_dispatcher_total: a source whose calls all raise,
driven through the unknown-intent, missing-facility, raised-error and
facility-raised-error paths. -/
theorem c8_dispatcher_total_witness :
    Tool.query_trackman failingSource "bogus" 30 "" 10 =
      ⟨"", Tool.invalidIntentMsg "bogus"⟩ ∧
    Tool.query_trackman failingSource "facility_summary" 30 "" 10 =
      ⟨"", Tool.missingFacilityMsg⟩ ∧
    Tool.query_trackman failingSource "errors_summary" 30 "" 10 =
      ⟨"", Tool.caughtMsg "boom"⟩ ∧
    Tool.query_trackman failingSource "facility_summary" 30 "FAC001" 10 =
      ⟨"", Tool.caughtMsg "boom"⟩ :=
  ⟨(c8_dispatcher_total failingSource "bogus" 30 10 "" "boom").1 (by decide),
   (c8_dispatcher_total failingSource "x" 30 10 "" "boom").2.1,
   (c8_dispatcher_total failingSource "x" 30 10 "" "boom").2.2.1 rfl,
   (c8_dispatcher_total failingSource "x" 30 10 "FAC001" "boom").2.2.2.2.2.2.1
     (by decide) rfl⟩

/-- C10: at the dispatcher interface an empty-string facility_id behaves
as no facility filter: each of the five filterable reports is invoked on
the underlying source with no facility filter (None), facility_summary
with the empty string yields the same missing-facility answer as an
absent parameter (the parameter default is the empty string), and the
file-backed facility filter ignores both None and the empty string. -/
theorem c10_empty_facility_id :
    ∀ (ds : DataSource) (range_days limit : Int) (df : DataFrame),
    (Tool.query_trackman ds "errors_summary" range_days "" limit =
      Tool.callAnswer (ds.get_errors_summary range_days none) "errors_summary") ∧
    (Tool.query_trackman ds "top_error_messages" range_days "" limit =
      Tool.callAnswer (ds.get_top_error_messages range_days limit none)
        "top_error_messages") ∧
    (Tool.query_trackman ds "connectivity_summary" range_days "" limit =
      Tool.callAnswer (ds.get_connectivity_summary range_days none)
        "connectivity_summary") ∧
    (Tool.query_trackman ds "disconnect_reasons" range_days "" limit =
      Tool.callAnswer (ds.get_disconnect_reasons range_days none)
        "disconnect_reasons") ∧
    (Tool.query_trackman ds "data_quality_summary" range_days "" limit =
      Tool.callAnswer (ds.get_data_quality_summary range_days none)
        "data_quality_summary") ∧
    (Tool.query_trackman ds "facility_summary" range_days "" limit =
      ⟨"", Tool.missingFacilityMsg⟩) ∧
    (Excel.filterByFacility df none = df) ∧
    (Excel.filterByFacility df (some "") = df) := by
  intro ds range_days limit df
  refine ⟨rfl, rfl, rfl, rfl, rfl, rfl, rfl, rfl⟩

theorem abs_sum_sub_sum_le {α : Type} (l : List α) (f g : α → ℚ) (b : ℚ)
    (h : ∀ x ∈ l, |f x - g x| ≤ b) :
    |(l.map f).sum - (l.map g).sum| ≤ (l.length : ℚ) * b := by
  induction l with
  | nil => simp
  | cons a l ih =>
    simp only [List.map_cons, List.sum_cons, List.length_cons]
    have h1 := h a (List.mem_cons_self a l)
    have h2 := ih (fun x hx => h x (List.mem_cons_of_mem a hx))
    have key : f a + (l.map f).sum - (g a + (l.map g).sum)
        = (f a - g a) + ((l.map f).sum - (l.map g).sum) := by ring
    rw [key]
    calc |(f a - g a) + ((l.map f).sum - (l.map g).sum)|
        ≤ |f a - g a| + |(l.map f).sum - (l.map g).sum| := abs_add _ _
      _ ≤ b + (l.length : ℚ) * b := add_le_add h1 h2
      _ = ((l.length : ℚ) + 1) * b := by ring
      _ = ((l.length + 1 : Nat) : ℚ) * b := by push_cast; ring

theorem sum_map_div_mul_aux (cs : List Nat) (T : ℚ) :
    (cs.map (fun (c : Nat) => (c : ℚ) / T * 100)).sum
      = ((cs.map Nat.cast : List ℚ)).sum / T * 100 := by
  induction cs with
  | nil => simp
  | cons a l ih =>
    simp only [List.map_cons, List.sum_cons, ih]
    ring

theorem sum_map_div_mul (cs : List Nat) (T : ℚ) (hT : T ≠ 0)
    (hsum : ((cs.map Nat.cast : List ℚ)).sum = T) :
    (cs.map (fun (c : Nat) => (c : ℚ) / T * 100)).sum = 100 := by
  rw [sum_map_div_mul_aux, hsum]
  field_simp

theorem sum_count_dedupFirst {α : Type} [DecidableEq α] (l : List α) :
    ((dedupFirst l).map (fun k => l.count k)).sum = l.length := by
  rw [← List.sum_toFinset _ (nodup_dedupFirst l), toFinset_dedupFirst]
  exact List.sum_toFinset_count_eq_length l

theorem length_filter_eq_count_map {α β : Type} [DecidableEq β] (l : List α)
    (f : α → β) (k : β) :
    (l.filter (fun x => f x == k)).length = (l.map f).count k := by
  rw [List.count, List.countP_map]
  rw [List.countP_eq_length_filter]
  rfl

theorem percent_sum_bound (cs : List Nat) (T : Nat) (hT : cs.sum = T) (h0 : T ≠ 0) :
    |(cs.map (fun (c : Nat) => round2 ((c : ℚ) / (T : ℚ) * 100))).sum - 100| ≤
      (cs.length : ℚ) * (1 / 200) := by
  have hTQ : ((T : ℚ)) ≠ 0 := Nat.cast_ne_zero.mpr h0
  have hcast : ((cs.map Nat.cast : List ℚ)).sum = (T : ℚ) := by
    rw [← hT]
    exact (Nat.cast_list_sum cs).symm
  have hsum := sum_map_div_mul cs (T : ℚ) hTQ hcast
  calc |(cs.map (fun (c : Nat) => round2 ((c : ℚ) / (T : ℚ) * 100))).sum - 100|
      = |(cs.map (fun (c : Nat) => round2 ((c : ℚ) / (T : ℚ) * 100))).sum -
          (cs.map (fun (c : Nat) => (c : ℚ) / (T : ℚ) * 100)).sum| := by rw [hsum]
    _ ≤ (cs.length : ℚ) * (1 / 200) :=
        abs_sum_sub_sum_le cs _ _ (1 / 200) (fun c _ => abs_round2_sub _)

theorem length_filter_split {α : Type} (p : α → Bool) (l : List α) :
    l.length = (l.filter p).length + (l.filter (fun a => !(p a))).length := by
  induction l with
  | nil => rfl
  | cons a l ih =>
    by_cases h : p a = true
    · simp [List.filter_cons, h, ih]
      omega
    · have h2 : p a = false := by
        cases hpa : p a
        · rfl
        · exact absurd hpa h
      simp [List.filter_cons, h2, ih]
      omega

theorem sum_group_sizes_aux {α β : Type} [BEq β] [LawfulBEq β]
    (ks : List β) (f : α → β) :
    ∀ l : List α, ks.Nodup → (∀ x ∈ l, f x ∈ ks) →
    (ks.map (fun k => (l.filter (fun x => f x == k)).length)).sum = l.length := by
  induction ks with
  | nil =>
    intro l _ hcov
    cases l with
    | nil => simp
    | cons a l => exact absurd (hcov a (List.mem_cons_self a l)) (List.not_mem_nil _)
  | cons k ks ih =>
    intro l hnd hcov
    rcases List.nodup_cons.mp hnd with ⟨hknotin, hnd2⟩
    simp only [List.map_cons, List.sum_cons]
    have hstep : ∀ k' ∈ ks,
        (l.filter (fun x => f x == k')).length
          = ((l.filter (fun x => !(f x == k))).filter (fun x => f x == k')).length := by
      intro k' hk'
      rw [List.filter_filter]
      refine congrArg List.length (List.filter_congr ?_)
      intro x _
      cases hx : (f x == k') with
      | true =>
        have hfk : f x = k' := eq_of_beq hx
        have hne : (f x == k) = false := by
          refine beq_eq_false_iff_ne.mpr ?_
          rw [hfk]
          intro he
          exact hknotin (he ▸ hk')
        simp [hne]
      | false => simp
    have hrest : (ks.map (fun k' => (l.filter (fun x => f x == k')).length)).sum
        = (l.filter (fun x => !(f x == k))).length := by
      rw [List.map_congr_left hstep]
      refine ih (l.filter (fun x => !(f x == k))) hnd2 ?_
      intro x hx
      rcases List.mem_filter.mp hx with ⟨hxl, hxk⟩
      rcases List.mem_cons.mp (hcov x hxl) with he | hm
      · exact absurd (beq_iff_eq.mpr he) (by simpa using hxk)
      · exact hm
    rw [hrest]
    have hsplit := length_filter_split (fun x => f x == k) l
    omega

theorem sum_group_sizes {α β : Type} [BEq β] [LawfulBEq β] [DecidableEq β]
    (l : List α) (f : α → β) :
    ((dedupFirst (l.map f)).map
      (fun k => (l.filter (fun x => f x == k)).length)).sum = l.length :=
  sum_group_sizes_aux (dedupFirst (l.map f)) f l (nodup_dedupFirst _)
    (fun _ hx => mem_dedupFirst.mpr (List.mem_map_of_mem f hx))

theorem redshift_disconnect_percent_sum (db : WarehouseDb) (now range_days : Int)
    (facility_id : Option String)
    (h : Redshift.survivingDisconnected db now range_days facility_id ≠ []) :
    percentSumOk (Redshift.get_disconnect_reasons db now range_days facility_id) := by
  unfold Redshift.get_disconnect_reasons
  dsimp only
  split
  · rename_i e heq
    simp [show Redshift.validateTableAccess "connectivity" = .ok () from rfl] at heq
  · set rs := Redshift.survivingDisconnected db now range_days facility_id with hrs
    set counts := (dedupFirst (rs.map (·.disconnect_reason))).map
      (fun k => (k, (rs.filter (fun ev => ev.disconnect_reason == k)).length))
      with hcounts
    set sorted := sortBy (fun a b => decide (b.2 ≤ a.2)) counts with hsorted
    set total := (counts.map Prod.snd).sum with htotal
    set cs := sorted.map Prod.snd with hcs
    have hcount_sum : (counts.map Prod.snd).sum = rs.length := by
      rw [hcounts, List.map_map]
      have hbeta : ((dedupFirst (rs.map (·.disconnect_reason))).map
          (Prod.snd ∘ fun k =>
            (k, (rs.filter (fun ev => ev.disconnect_reason == k)).length)))
          = (dedupFirst (rs.map (·.disconnect_reason))).map
            (fun k => (rs.filter (fun ev => ev.disconnect_reason == k)).length) :=
        List.map_congr_left (fun k _ => rfl)
      rw [hbeta]
      exact sum_group_sizes rs (·.disconnect_reason)
    have hperm : (sorted.map Prod.snd).Perm (counts.map Prod.snd) :=
      (perm_sortBy _ counts).map Prod.snd
    have hcs_sum : cs.sum = rs.length := by
      rw [hcs, hperm.sum_eq, hcount_sum]
    have h0 : rs.length ≠ 0 := by
      intro hl
      exact h (List.length_eq_zero.mp hl)
    have htot_eq : total = rs.length := by
      rw [htotal, hcount_sum]
    have hbound := percent_sum_bound cs rs.length hcs_sum h0
    show |sumPercent (sorted.map (fun p =>
        [Redshift.reasonCell p.1, Value.int (p.2 : Int),
          Value.rat (round2 ((100 * (p.2 : ℚ)) / (total : ℚ)))])) - 100| ≤
      ((sorted.map (fun p =>
        [Redshift.reasonCell p.1, Value.int (p.2 : Int),
          Value.rat (round2 ((100 * (p.2 : ℚ)) / (total : ℚ)))])).length : ℚ) *
        (1 / 200)
    have hsp : sumPercent (sorted.map (fun p =>
        [Redshift.reasonCell p.1, Value.int (p.2 : Int),
          Value.rat (round2 ((100 * (p.2 : ℚ)) / (total : ℚ)))])) =
        (cs.map (fun (c : Nat) =>
          round2 ((c : ℚ) / ((rs.length : Nat) : ℚ) * 100))).sum := by
      rw [sumPercent, List.map_map, hcs, List.map_map]
      refine congrArg List.sum (List.map_congr_left ?_)
      intro p _
      show round2 ((100 * (p.2 : ℚ)) / (total : ℚ)) =
        round2 ((p.2 : ℚ) / ((rs.length : Nat) : ℚ) * 100)
      rw [htot_eq]
      exact congrArg round2 (by ring)
    rw [hsp, List.length_map]
    have hlen : sorted.length = cs.length := by
      rw [hcs, List.length_map]
    rw [hlen]
    exact hbound

theorem columns_ne_nil_of_colIdx {df : DataFrame} {c : String} {i : Nat}
    (h : df.colIdx c = some i) : df.columns ≠ [] := by
  intro h0
  rw [DataFrame.colIdx, h0] at h
  simp at h

theorem dedupFirst_ne_nil {α : Type} [DecidableEq α] {l : List α} (h : l ≠ []) :
    dedupFirst l ≠ [] := by
  cases l with
  | nil => exact absurd rfl h
  | cons a l => simp [dedupFirst]

theorem excel_disconnect_percent_sum (data : ExcelData) (now range_days : Int)
    (facility_id : Option String)
    (h : Excel.survivingReasons data now range_days facility_id ≠ []) :
    percentSumOk (Excel.get_disconnect_reasons data now range_days facility_id) := by
  unfold Excel.survivingReasons at h
  dsimp only at h
  rcases hsi : (Excel.filterByFacility
      (Excel.filterByDateRange data.connectivity now range_days)
      facility_id).colIdx "connectivity_status" with _ | si
  · rw [hsi] at h
    simp at h
  · rcases hri : (Excel.filterByFacility
        (Excel.filterByDateRange data.connectivity now range_days)
        facility_id).colIdx "disconnect_reason" with _ | ri
    · rw [hsi, hri] at h
      simp at h
    · rw [hsi, hri] at h
      dsimp only at h
      unfold Excel.get_disconnect_reasons
      dsimp only
      set df := Excel.filterByFacility
        (Excel.filterByDateRange data.connectivity now range_days) facility_id
        with hdf
      set vals := nonNull (colCells
        (df.rows.filter (fun r => cellAt r si == Value.str "disconnected")) ri)
        with hvals
      have hcolsne : df.columns ≠ [] := columns_ne_nil_of_colIdx hsi
      have hdisc_ne : df.rows.filter
          (fun r => cellAt r si == Value.str "disconnected") ≠ [] := by
        intro h0
        apply h
        rw [hvals, h0]
        rfl
      have hrows_ne : df.rows ≠ [] := by
        intro h0
        apply hdisc_ne
        rw [h0]
        rfl
      have hempty : df.empty = false := by
        rw [DataFrame.empty]
        simp [List.isEmpty_iff, hrows_ne, hcolsne]
      rw [hempty]
      simp only [Bool.false_eq_true, if_false]
      have hsi2 : requireCol df "connectivity_status" = .ok si := by
        rw [requireCol, hsi]
      rw [hsi2]
      dsimp only
      have hdisc_empty : DataFrame.empty ⟨df.columns, df.rows.filter
          (fun r => cellAt r si == Value.str "disconnected")⟩ = false := by
        rw [DataFrame.empty]
        simp [List.isEmpty_iff, hdisc_ne, hcolsne]
      rw [hdisc_empty]
      simp only [Bool.false_eq_true, if_false]
      have hri2 : requireCol ⟨df.columns, df.rows.filter
          (fun r => cellAt r si == Value.str "disconnected")⟩ "disconnect_reason"
          = .ok ri := by
        rw [requireCol]
        have : DataFrame.colIdx ⟨df.columns, df.rows.filter
            (fun r => cellAt r si == Value.str "disconnected")⟩ "disconnect_reason"
            = some ri := hri
        rw [this]
      rw [hri2]
      dsimp only
      set counts := (dedupFirst vals).map (fun k => (k, vals.count k)) with hcounts
      set sorted := sortBy (fun a b => decide (b.2 ≤ a.2)) counts with hsorted
      set total := (counts.map Prod.snd).sum with htotal
      set cs := sorted.map Prod.snd with hcs
      have hcount_sum : (counts.map Prod.snd).sum = vals.length := by
        rw [hcounts, List.map_map]
        have hbeta : ((dedupFirst vals).map
            (Prod.snd ∘ fun k => (k, vals.count k)))
            = (dedupFirst vals).map (fun k => vals.count k) :=
          List.map_congr_left (fun k _ => rfl)
        rw [hbeta]
        exact sum_count_dedupFirst vals
      have hperm : (sorted.map Prod.snd).Perm (counts.map Prod.snd) :=
        (perm_sortBy _ counts).map Prod.snd
      have hcs_sum : cs.sum = vals.length := by
        rw [hcs, hperm.sum_eq, hcount_sum]
      have h0 : vals.length ≠ 0 := by
        intro hl
        exact h (List.length_eq_zero.mp hl)
      have htot_eq : total = vals.length := by
        rw [htotal, hcount_sum]
      have hsorted_ne : sorted ≠ [] := by
        intro h0
        have hlen := congrArg List.length h0
        rw [(perm_sortBy (fun a b => decide (b.2 ≤ a.2)) counts).length_eq] at hlen
        rw [hcounts, List.length_map] at hlen
        exact dedupFirst_ne_nil h (List.length_eq_zero.mp hlen)
      have hfmt_empty : DataFrame.empty
          ⟨["disconnect_reason", "count", "percentage"],
            sorted.map (fun p => [p.1, Value.int (p.2 : Int),
              Value.rat (round2 (((p.2 : ℚ) / (total : ℚ)) * 100))])⟩ = false := by
        rw [DataFrame.empty]
        have : sorted.map (fun p => ([p.1, Value.int (p.2 : Int),
            Value.rat (round2 (((p.2 : ℚ) / (total : ℚ)) * 100))] : Row)) ≠ [] := by
          intro h0
          exact hsorted_ne (List.map_eq_nil_iff.mp h0)
        simp [List.isEmpty_iff, this]
      rw [Excel.formatResult, hfmt_empty]
      simp only [Bool.false_eq_true, if_false]
      have hbound := percent_sum_bound cs vals.length hcs_sum h0
      show |sumPercent ((sorted.map (fun p => [p.1, Value.int (p.2 : Int),
          Value.rat (round2 (((p.2 : ℚ) / (total : ℚ)) * 100))])).map
            (fun r => r.map Excel.fillNA)) - 100| ≤
        ((((sorted.map (fun p => [p.1, Value.int (p.2 : Int),
          Value.rat (round2 (((p.2 : ℚ) / (total : ℚ)) * 100))])).map
            (fun r => r.map Excel.fillNA)).length : ℚ)) * (1 / 200)
      have hsp : sumPercent ((sorted.map (fun p => [p.1, Value.int (p.2 : Int),
          Value.rat (round2 (((p.2 : ℚ) / (total : ℚ)) * 100))])).map
            (fun r => r.map Excel.fillNA)) =
          (cs.map (fun (c : Nat) =>
            round2 ((c : ℚ) / ((vals.length : Nat) : ℚ) * 100))).sum := by
        rw [sumPercent, List.map_map, List.map_map, hcs, List.map_map]
        refine congrArg List.sum (List.map_congr_left ?_)
        intro p _
        show round2 (((p.2 : ℚ) / (total : ℚ)) * 100) =
          round2 ((p.2 : ℚ) / ((vals.length : Nat) : ℚ) * 100)
        rw [htot_eq]
      rw [hsp, List.length_map, List.length_map]
      have hlen : sorted.length = cs.length := by
        rw [hcs, List.length_map]
      rw [hlen]
      exact hbound

/-- C7 counterexample: the claim as stated fails on the code.  With one
disconnected connectivity event in range whose disconnect_reason is null,
the set of disconnected events surviving the filters is non-empty, yet
value_counts drops the null reason, the file-backed operation returns a
result with zero rows, and the returned percentages sum to 0, not 100. -/
theorem c7_counterexample :
    Excel.survivingDisconnected nullReasonData 0 30 none ≠ [] ∧
    ¬ percentSumOk (Excel.get_disconnect_reasons nullReasonData 0 30 none) := by
  constructor
  · intro h
    exact absurd h (by decide)
  · have h : Excel.get_disconnect_reasons nullReasonData 0 30 none =
        .ok ⟨[], [], ⟨30, none, none, "excel", 0⟩⟩ := rfl
    rw [h]
    show ¬ (|sumPercent [] - 100| ≤ ((0 : Nat) : ℚ) * (1 / 200))
    rw [sumPercent]
    norm_num

/-- C7 amended: for every dataset and request, whenever at least one
surviving disconnected event carries a non-null disconnect_reason on the
file backend (respectively whenever the surviving disconnected set is
non-empty on the warehouse backend), the percentage values over all
returned disconnect_reasons rows sum to 100 up to the accumulated
two-decimal rounding error (at most 0.005 per returned row), where each
percentage is 100 times the group count divided by the number of counted
events (on the file backend the events with a non-null reason; on the
warehouse backend all surviving disconnected events). -/
theorem c7_amended :
    ∀ (data : ExcelData) (db : WarehouseDb) (now range_days : Int)
      (facility_id : Option String),
    (Excel.survivingReasons data now range_days facility_id ≠ [] →
      percentSumOk (Excel.get_disconnect_reasons data now range_days facility_id)) ∧
    (Redshift.survivingDisconnected db now range_days facility_id ≠ [] →
      percentSumOk (Redshift.get_disconnect_reasons db now range_days facility_id)) :=
  fun data db now range_days facility_id =>
    ⟨excel_disconnect_percent_sum data now range_days facility_id,
     redshift_disconnect_percent_sum db now range_days facility_id⟩

/-- Witness for c7_amended: three disconnected events with reasons on
both backends. -/
theorem c7_amended_witness :
    percentSumOk (Excel.get_disconnect_reasons reasonData 0 30 none) ∧
    percentSumOk (Redshift.get_disconnect_reasons reasonDb 0 30 none) :=
  ⟨(c7_amended reasonData reasonDb 0 30 none).1 (by decide),
   (c7_amended reasonData reasonDb 0 30 none).2 (by decide)⟩

end Trackman
